import Mathlib

/-!
Verification of the WebRTC connection orchestrator (`webRTCManager.js`,
here `src/unnamed/part_002`): a shallow embedding of the signaling-message
codec, the per-peer session bookkeeping, and the message-driven state
machine, together with proofs of the specification's claims about them.

External collaborators (the WebSocket transport, the `RTCPeerConnection`
engine, the DOM) are modelled by their observable behaviour: engine calls
move `signalingState` as the WebRTC standard prescribes, DOM sinks are
assumed present (the page supplies the configured container), and all
outward actions (socket sends, data-channel sends, application callbacks,
console warnings) are recorded as a list of `Effect`s.
-/

namespace ToyWebRTC

/-! ### Signaling message codec (part_002, lines 1–40) -/

/-- JS `parseInt(s, 10)` restricted to the inputs this protocol can
produce (no sign, no leading whitespace, no hex): the value of the longest
leading run of decimal digits; `none` models JS `NaN` when there is no
leading digit. -/
def jsParseInt (s : String) : Option Nat :=
  let ds := s.data.takeWhile Char.isDigit
  if ds.isEmpty then none
  else some (ds.foldl (fun a c => a * 10 + (c.toNat - 48)) 0)

/-- One decoded signaling frame (`class SignalingMessage`, lines 15–40).
The source field `Type` is spelled `Typ` (`Type` is reserved in Lean).
`ConnectionCount` is `Option Nat`: `some n` is an ordinary non-negative
number, `none` models the JS `NaN` that `parseInt` yields on
non-numeric text. -/
structure SignalingMessage where
  Typ : String
  SenderPeerId : String
  ReceiverPeerId : String
  Message : String
  ConnectionCount : Option Nat
  IsVideoAudioSender : Bool
deriving DecidableEq, Repr

/-- How the JS template literal renders the `ConnectionCount` field:
decimal digits for a number, the text `NaN` for `NaN`. -/
def numToString : Option Nat → String
  | some n => Nat.repr n
  | none => "NaN"

/-- How the JS template literal renders a boolean. -/
def boolToString : Bool → String
  | true => "true"
  | false => "false"

/-- `SignalingMessage.toString` (lines 37–39): the six fields joined with
`|` in fixed order. -/
def SignalingMessage.toWire (m : SignalingMessage) : String :=
  m.Typ ++ "|" ++ m.SenderPeerId ++ "|" ++ m.ReceiverPeerId ++ "|" ++ m.Message ++ "|"
    ++ numToString m.ConnectionCount ++ "|" ++ boolToString m.IsVideoAudioSender

/-- JS `String.prototype.toLowerCase` on the ASCII data this protocol
carries: lower-case each character. -/
def jsToLowerCase (s : String) : String :=
  List.asString (s.data.map Char.toLower)

/-- The parsing constructor `new SignalingMessage(text)` (lines 17–25):
split on `|`; a missing/empty numeric field defaults to `0`, a
missing/empty boolean field to `false`.  (JS leaves a missing *string*
field `undefined` rather than `""`; no theorem below feeds the parser a
frame with fewer than six fields, so the distinction is never
observable here.) -/
def parseSignalingMessage (text : String) : SignalingMessage :=
  let parts := (text.data.splitOn '|').map List.asString
  { Typ := parts.getD 0 ""
    SenderPeerId := parts.getD 1 ""
    ReceiverPeerId := parts.getD 2 ""
    Message := parts.getD 3 ""
    ConnectionCount :=
      let p := parts.getD 4 ""
      if p = "" then some 0 else jsParseInt p
    IsVideoAudioSender :=
      let p := parts.getD 5 ""
      if p = "" then false else decide (jsToLowerCase p = "true") }

/-- The eight message kinds (`SignalingMessageType`, lines 2–12). -/
def knownKinds : List String :=
  ["NEWPEER", "NEWPEERACK", "OFFER", "ANSWER", "CANDIDATE", "DISPOSE", "DATA", "COMPLETE"]

/-! ### Decimal print/parse correctness

`Nat.repr` is the printer the JS template literal corresponds to; the
lemmas below show that `jsParseInt` recovers the number, that every
printed character is a decimal digit (in particular never `|`), and that
the printed form is nonempty. -/

/-- Reference decimal printer: most significant digit first. -/
def decChars (n : Nat) : List Char :=
  if _h : n / 10 = 0 then [Nat.digitChar (n % 10)]
  else decChars (n / 10) ++ [Nat.digitChar (n % 10)]
decreasing_by
  exact Nat.div_lt_self (Nat.pos_of_ne_zero (fun h0 => _h (by simp [h0]))) (by decide)

/-- Value of a digit string, most significant digit first. -/
def decVal (l : List Char) : Nat :=
  l.foldl (fun a c => a * 10 + (c.toNat - 48)) 0

theorem digitChar_facts : ∀ d < 10,
    (Nat.digitChar d).isDigit = true ∧ (Nat.digitChar d).toNat - 48 = d := by decide

theorem decChars_of_small {n : Nat} (h : n / 10 = 0) :
    decChars n = [Nat.digitChar (n % 10)] := by
  rw [decChars]
  simp [h]

theorem decChars_of_large {n : Nat} (h : ¬ n / 10 = 0) :
    decChars n = decChars (n / 10) ++ [Nat.digitChar (n % 10)] := by
  rw [decChars]
  simp [h]

theorem toDigitsCore_eq_decChars :
    ∀ (fuel n : Nat) (acc : List Char), n < fuel →
    Nat.toDigitsCore 10 fuel n acc = decChars n ++ acc := by
  intro fuel
  induction fuel with
  | zero => intro n acc h; omega
  | succ f ih =>
    intro n acc h
    rw [Nat.toDigitsCore]
    by_cases h10 : n / 10 = 0
    · rw [if_pos h10, decChars_of_small h10]
      rfl
    · have h1 : n / 10 < n := Nat.div_lt_self (Nat.pos_of_ne_zero (by
        intro h0; exact h10 (by simp [h0]))) (by decide)
      rw [if_neg h10, ih (n / 10) _ (by omega), decChars_of_large h10, List.append_assoc]
      rfl

theorem toDigits_eq_decChars (n : Nat) : Nat.toDigits 10 n = decChars n := by
  have := toDigitsCore_eq_decChars (n + 1) n [] (Nat.lt_succ_self n)
  simpa [Nat.toDigits] using this

theorem decChars_all_digits (n : Nat) : ∀ c ∈ decChars n, c.isDigit = true := by
  induction n using decChars.induct with
  | case1 n h =>
    rw [decChars_of_small h]
    intro c hc
    simp only [List.mem_singleton] at hc
    subst hc
    exact (digitChar_facts (n % 10) (Nat.mod_lt _ (by decide))).1
  | case2 n h ih =>
    rw [decChars_of_large h]
    intro c hc
    rcases List.mem_append.mp hc with h1 | h2
    · exact ih c h1
    · simp only [List.mem_singleton] at h2
      subst h2
      exact (digitChar_facts (n % 10) (Nat.mod_lt _ (by decide))).1

theorem decChars_ne_nil (n : Nat) : decChars n ≠ [] := by
  by_cases h : n / 10 = 0
  · rw [decChars_of_small h]; simp
  · rw [decChars_of_large h]; simp

theorem decVal_append_digit (l : List Char) (c : Char) :
    decVal (l ++ [c]) = decVal l * 10 + (c.toNat - 48) := by
  simp [decVal, List.foldl_append]

theorem decVal_decChars (n : Nat) : decVal (decChars n) = n := by
  induction n using decChars.induct with
  | case1 n h =>
    have hn : n < 10 := by omega
    rw [decChars_of_small h, Nat.mod_eq_of_lt hn]
    have h2 := (digitChar_facts n hn).2
    simp [decVal, h2]
  | case2 n h ih =>
    rw [decChars_of_large h, decVal_append_digit, ih,
      (digitChar_facts (n % 10) (Nat.mod_lt _ (by decide))).2]
    omega

theorem repr_data (n : Nat) : (Nat.repr n).data = decChars n := by
  show (List.asString (Nat.toDigits 10 n)).data = decChars n
  rw [toDigits_eq_decChars]
  rfl

theorem takeWhile_of_all {p : Char → Bool} :
    ∀ (l : List Char), (∀ c ∈ l, p c = true) → l.takeWhile p = l := by
  intro l h
  induction l with
  | nil => rfl
  | cons c t ih =>
    simp only [List.takeWhile]
    rw [h c (List.mem_cons_self c t)]
    simp [ih (fun x hx => h x (List.mem_cons_of_mem c hx))]

theorem jsParseInt_repr (n : Nat) : jsParseInt (Nat.repr n) = some n := by
  have hne : (decChars n).isEmpty = false := by
    cases h : decChars n with
    | nil => exact absurd h (decChars_ne_nil n)
    | cons a l => rfl
  simp only [jsParseInt]
  rw [repr_data, takeWhile_of_all _ (decChars_all_digits n)]
  simp only [hne, Bool.false_eq_true, if_false]
  exact congrArg some (decVal_decChars n)

theorem repr_ne_empty (n : Nat) : Nat.repr n ≠ "" := by
  intro h
  have : (Nat.repr n).data = [] := by rw [h]
  rw [repr_data] at this
  exact decChars_ne_nil n this

theorem pipe_not_mem_repr (n : Nat) : '|' ∉ (Nat.repr n).data := by
  rw [repr_data]
  intro hmem
  have := decChars_all_digits n '|' hmem
  simp [Char.isDigit] at this

theorem toWire_data (m : SignalingMessage) :
    (SignalingMessage.toWire m).data =
      List.intercalate ['|'] [m.Typ.data, m.SenderPeerId.data, m.ReceiverPeerId.data,
        m.Message.data, (numToString m.ConnectionCount).data,
        (boolToString m.IsVideoAudioSender).data] := by
  simp [SignalingMessage.toWire, List.intercalate, List.intersperse, String.data_append,
    List.append_assoc]

theorem pipe_not_mem_boolToString (b : Bool) : '|' ∉ (boolToString b).data := by
  cases b <;> decide

/-- The codec round-trip on delimiter-free fields: splitting the joined
wire text recovers the six field texts. -/
theorem toWire_splitOn (m : SignalingMessage) (n : Nat)
    (hc : m.ConnectionCount = some n)
    (h1 : '|' ∉ m.Typ.data) (h2 : '|' ∉ m.SenderPeerId.data)
    (h3 : '|' ∉ m.ReceiverPeerId.data) (h4 : '|' ∉ m.Message.data) :
    ((SignalingMessage.toWire m).data).splitOn '|' =
      [m.Typ.data, m.SenderPeerId.data, m.ReceiverPeerId.data, m.Message.data,
       (numToString m.ConnectionCount).data, (boolToString m.IsVideoAudioSender).data] := by
  rw [toWire_data]
  apply List.splitOn_intercalate
  · intro l hl
    simp only [List.mem_cons, List.not_mem_nil, or_false] at hl
    rcases hl with rfl | rfl | rfl | rfl | rfl | rfl
    · exact h1
    · exact h2
    · exact h3
    · exact h4
    · rw [hc]; exact pipe_not_mem_repr n
    · exact pipe_not_mem_boolToString _
  · simp

theorem asString_data (s : String) : List.asString s.data = s := rfl

theorem parse_toWire (m : SignalingMessage) (n : Nat)
    (hc : m.ConnectionCount = some n)
    (h1 : '|' ∉ m.Typ.data) (h2 : '|' ∉ m.SenderPeerId.data)
    (h3 : '|' ∉ m.ReceiverPeerId.data) (h4 : '|' ∉ m.Message.data) :
    parseSignalingMessage (SignalingMessage.toWire m) = m := by
  obtain ⟨t, s, r, msg, c, b⟩ := m
  simp only at hc h1 h2 h3 h4
  subst hc
  simp only [parseSignalingMessage]
  rw [toWire_splitOn _ n rfl h1 h2 h3 h4]
  simp only [List.map, asString_data, List.getD_cons_zero, List.getD_cons_succ]
  have hnum : numToString (some n) = Nat.repr n := rfl
  rw [hnum, if_neg (repr_ne_empty n), jsParseInt_repr]
  cases b <;> simp [boolToString] <;> decide

/-! ### Session table (part_002, lines 63–70)

The source keeps per-peer resources in JS `Map`s.  `SMap` models a JS
`Map` with string keys: `set` replaces in place or appends at the end,
`delete` removes the key, iteration follows insertion order, `size` is
the number of entries. -/

abbrev SMap (α : Type) : Type := List (String × α)

def SMap.lookup {α : Type} : SMap α → String → Option α
  | [], _ => none
  | (k, v) :: m, key => if k = key then some v else SMap.lookup m key

def SMap.contains {α : Type} (m : SMap α) (k : String) : Bool :=
  (m.lookup k).isSome

def SMap.set {α : Type} : SMap α → String → α → SMap α
  | [], key, v => [(key, v)]
  | (k, w) :: m, key, v => if k = key then (key, v) :: m else (k, w) :: SMap.set m key v

def SMap.delete {α : Type} (m : SMap α) (key : String) : SMap α :=
  List.filter (fun p => !(p.1 == key)) m

def SMap.size {α : Type} (m : SMap α) : Nat := List.length m

/-- Keys are pairwise distinct — the `Map` representation invariant. -/
def SMap.keysUnique {α : Type} (m : SMap α) : Prop := (m.map Prod.fst).Nodup

theorem SMap.lookup_set_self {α : Type} (m : SMap α) (k : String) (v : α) :
    (m.set k v).lookup k = some v := by
  induction m with
  | nil => simp [SMap.set, SMap.lookup]
  | cons p t ih =>
    obtain ⟨k', w⟩ := p
    by_cases h : k' = k
    · simp [SMap.set, h, SMap.lookup]
    · simp [SMap.set, h, SMap.lookup, ih]

theorem SMap.lookup_set_ne {α : Type} (m : SMap α) (k k' : String) (v : α) (h : k' ≠ k) :
    (m.set k v).lookup k' = m.lookup k' := by
  induction m with
  | nil => simp [SMap.set, SMap.lookup, Ne.symm h]
  | cons p t ih =>
    obtain ⟨k0, w⟩ := p
    by_cases h0 : k0 = k
    · subst h0
      simp [SMap.set, SMap.lookup, Ne.symm h]
    · simp only [SMap.set, if_neg h0, SMap.lookup]
      by_cases h1 : k0 = k'
      · simp [h1]
      · simp [h1, ih]

theorem SMap.lookup_delete_self {α : Type} (m : SMap α) (k : String) :
    (m.delete k).lookup k = none := by
  induction m with
  | nil => simp [SMap.delete, SMap.lookup]
  | cons p t ih =>
    obtain ⟨k0, w⟩ := p
    simp only [SMap.delete] at ih ⊢
    by_cases h : k0 = k
    · simp [List.filter_cons, h, ih]
    · simp [List.filter_cons, h, SMap.lookup, ih]

theorem SMap.lookup_delete_ne {α : Type} (m : SMap α) (k k' : String) (h : k' ≠ k) :
    (m.delete k).lookup k' = m.lookup k' := by
  induction m with
  | nil => simp [SMap.delete, SMap.lookup]
  | cons p t ih =>
    obtain ⟨k0, w⟩ := p
    simp only [SMap.delete] at ih ⊢
    by_cases h0 : k0 = k
    · subst h0
      simp [List.filter_cons, SMap.lookup, Ne.symm h, ih]
    · by_cases h1 : k0 = k'
      · simp [List.filter_cons, h0, h1, SMap.lookup, h]
      · simp [List.filter_cons, h0, h1, SMap.lookup, ih]

theorem SMap.size_set_of_mem {α : Type} (m : SMap α) (k : String) (v : α)
    (h : (m.lookup k).isSome) : (m.set k v).size = m.size := by
  induction m with
  | nil => simp [SMap.lookup] at h
  | cons p t ih =>
    obtain ⟨k0, w⟩ := p
    by_cases h0 : k0 = k
    · simp [SMap.set, h0, SMap.size]
    · simp only [SMap.lookup, h0, if_false, if_neg h0] at h
      simp [SMap.set, h0, SMap.size] at ih ⊢
      exact ih h

theorem SMap.mem_keys_set {α : Type} (m : SMap α) (k k0 : String) (v : α) :
    k0 ∈ (m.set k v).map Prod.fst ↔ k0 ∈ m.map Prod.fst ∨ k0 = k := by
  induction m with
  | nil => simp [SMap.set]
  | cons p t ih =>
    obtain ⟨kq, w⟩ := p
    by_cases hq : kq = k
    · subst hq
      simp only [SMap.set, if_pos rfl, List.map, List.mem_cons]
      tauto
    · simp only [SMap.set, if_neg hq, List.map, List.mem_cons, ih]
      tauto

theorem SMap.keysUnique_set {α : Type} (m : SMap α) (k : String) (v : α)
    (h : m.keysUnique) : (m.set k v).keysUnique := by
  induction m with
  | nil => simp [SMap.set, SMap.keysUnique]
  | cons p t ih =>
    obtain ⟨k0, w⟩ := p
    simp only [SMap.keysUnique, List.map, List.nodup_cons] at h
    by_cases h0 : k0 = k
    · subst h0
      simpa [SMap.set, SMap.keysUnique] using h
    · have ht := ih h.2
      simp only [SMap.set, if_neg h0, SMap.keysUnique, List.map, List.nodup_cons]
      refine ⟨?_, ht⟩
      intro hmem
      rcases (SMap.mem_keys_set t k k0 v).mp hmem with hmem' | rfl
      · exact h.1 hmem'
      · exact h0 rfl

/-! ### Connection-engine and media model

The `RTCPeerConnection` engine is an external collaborator; the model
keeps, per handle, exactly the state the orchestrator observes: an
allocation identity (to express "same handle" / "fresh handle") and the
negotiation-relevant signaling state and descriptions.  Engine calls
(`setLocalDescription`, `setRemoteDescription`) move `signalingState` as
the WebRTC standard prescribes. -/

inductive RTCSignalingState
  | stable
  | haveLocalOffer
  | haveRemoteOffer
deriving DecidableEq, Repr

structure PeerConnection where
  handleId : Nat
  signalingState : RTCSignalingState
  localDescription : Option String
  remoteDescription : Option String
deriving DecidableEq, Repr

inductive RTCDataChannelState
  | connecting
  | opened
  | closed
deriving DecidableEq, Repr

structure DataChannel where
  channelId : Nat
  readyState : RTCDataChannelState
deriving DecidableEq, Repr

inductive TrackKind
  | video
  | audio
deriving DecidableEq, Repr

structure MediaTrack where
  trackId : Nat
  kind : TrackKind
deriving DecidableEq, Repr

/-- The per-peer bundle built by `_createNewPeerMediaReceivingResources`
(part_002, lines 483–534): DOM video and audio sinks plus the lazily
created composite `remoteStream`.  The DOM elements are external; the
model assumes the configured video container exists (so creation always
succeeds and the bundle always carries a video element) and keeps the
composite stream, `none` until the first remote track arrives. -/
structure MediaBundle where
  bundleId : Nat
  remoteStream : Option (List MediaTrack)
deriving DecidableEq, Repr

/-- The state of one `WebRTCManager` (part_002, lines 42–72).  `wsOpen`
models `this.ws && this.ws.readyState === WebSocket.OPEN`; `nextId` is a
freshness counter for every externally allocated object (engine handles,
data channels, RTP senders, media bundles). -/
structure ManagerState where
  localPeerId : String
  wsOpen : Bool
  isWebSocketConnectionInProgress : Bool
  isLocalPeerVideoAudioSender : Bool
  isLocalPeerVideoAudioReceiver : Bool
  peerConnections : SMap PeerConnection
  senderDataChannels : SMap DataChannel
  receiverDataChannels : SMap DataChannel
  videoTrackSenders : SMap Nat
  audioTrackSenders : SMap Nat
  mediaElements : SMap MediaBundle
  localStream : Option (List MediaTrack)
  nextId : Nat
deriving DecidableEq, Repr

/-- Every outward action of the orchestrator: a frame handed to
`ws.send`, a data-channel send, an application callback, or console
output. -/
inductive Effect
  | wsSend (m : SignalingMessage)
  | dcSend (peerId : String) (payload : String)
  | callWebSocketConnection (state : String)
  | callWebRTCConnection (peerId : String)
  | callDataChannelConnection (peerId : String)
  | callDataChannelMessageReceived (payload : String) (peerId : String)
  | callVideoStreamEstablished (peerId : String) (stream : List MediaTrack)
  | callAudioStreamEstablished (peerId : String) (stream : List MediaTrack)
  | warn (message : String)
  | logError (message : String)
  | log (message : String)
deriving DecidableEq, Repr

/-- The signaling frames among a list of effects, in emission order. -/
def wsSends : List Effect → List SignalingMessage
  | [] => []
  | Effect.wsSend m :: es => m :: wsSends es
  | _ :: es => wsSends es

/-- The data-channel sends among a list of effects, in emission order. -/
def dcSends : List Effect → List (String × String)
  | [] => []
  | Effect.dcSend p m :: es => (p, m) :: dcSends es
  | _ :: es => dcSends es

/-! ### Orchestrator operations (part_002, lines 42–872) -/

/-- `sendWebSocketMessage` (lines 858–872): build the frame, stamping it
with the current `peerConnections.size` and the local media-send intent,
and hand it to `ws.send`; warn and drop it when the socket is not open.
(The two extra arguments some call sites pass are ignored by the
four-parameter source function.) -/
def sendWebSocketMessage (st : ManagerState)
    (messageType senderPeerId receiverPeerId message : String) : List Effect :=
  if st.wsOpen then
    [Effect.wsSend
      { Typ := messageType
        SenderPeerId := senderPeerId
        ReceiverPeerId := receiverPeerId
        Message := message
        ConnectionCount := some st.peerConnections.size
        IsVideoAudioSender := st.isLocalPeerVideoAudioSender }]
  else
    [Effect.warn ("WebSocket not open. Cannot send: " ++ messageType ++ " to " ++ receiverPeerId)]

/-- The `addTrack` loop of `_setupPeerConnection` (lines 141–150) and of
`setLocalStream` (lines 836–843): attach each local track to the peer's
engine handle, recording the returned RTP sender per kind. -/
def addLocalTracks (st : ManagerState) (peerId : String) (tracks : List MediaTrack) :
    ManagerState :=
  tracks.foldl
    (fun s t =>
      let senderId := s.nextId
      let s' := { s with nextId := s.nextId + 1 }
      match t.kind with
      | TrackKind.video => { s' with videoTrackSenders := s'.videoTrackSenders.set peerId senderId }
      | TrackKind.audio => { s' with audioTrackSenders := s'.audioTrackSenders.set peerId senderId })
    st

/-- `_setupPeerConnection` (lines 125–153): a no-op (with a warning)
returning the existing handle when one exists; otherwise allocate a fresh
engine handle, register it, install the event handlers — which eagerly
creates the outbound data channel (lines 210–235) — and, when we are a
media sender holding a local stream, attach its tracks. -/
def setupPeerConnection (st : ManagerState) (peerId : String) :
    ManagerState × PeerConnection × List Effect :=
  match st.peerConnections.lookup peerId with
  | some pc => (st, pc, [Effect.warn ("Peer connection for " ++ peerId ++ " already exists.")])
  | none =>
    let pc : PeerConnection :=
      { handleId := st.nextId
        signalingState := RTCSignalingState.stable
        localDescription := none
        remoteDescription := none }
    let st1 := { st with
      peerConnections := st.peerConnections.set peerId pc
      nextId := st.nextId + 1 }
    let st2 :=
      if st1.senderDataChannels.contains peerId then st1
      else { st1 with
        senderDataChannels :=
          st1.senderDataChannels.set peerId
            { channelId := st1.nextId, readyState := RTCDataChannelState.connecting }
        nextId := st1.nextId + 1 }
    let st3 :=
      if st2.isLocalPeerVideoAudioSender then
        match st2.localStream with
        | some tracks => addLocalTracks st2 peerId tracks
        | none => st2
      else st2
    (st3, pc, [])

/-- `_createAndSendOffer` (lines 536–561): refuse without a handle;
refuse (warning only) unless the signaling state is `stable`; otherwise
`createOffer` + `setLocalDescription` — which moves the engine to
`have-local-offer` — and send the OFFER frame. -/
def createAndSendOffer (st : ManagerState) (peerId : String) : ManagerState × List Effect :=
  match st.peerConnections.lookup peerId with
  | none => (st, [Effect.logError ("Cannot create offer for " ++ peerId ++ ", no peer connection.")])
  | some pc =>
    if pc.signalingState ≠ RTCSignalingState.stable then
      (st, [Effect.warn ("Cannot create offer for " ++ peerId
              ++ ", signaling state is not stable.")])
    else
      let offerSdp := "sdp-offer-" ++ Nat.repr pc.handleId
      let pc' := { pc with
        localDescription := some offerSdp
        signalingState := RTCSignalingState.haveLocalOffer }
      let st' := { st with peerConnections := st.peerConnections.set peerId pc' }
      (st', sendWebSocketMessage st' "OFFER" st.localPeerId peerId offerSdp)

/-- `_handleOffer` (lines 563–583): requires an existing handle;
`setRemoteDescription(offer)` (engine: → `have-remote-offer`), then
`createAnswer` + `setLocalDescription(answer)` (engine: → `stable`), then
send the ANSWER frame. -/
def handleOffer (st : ManagerState) (senderPeerId offerSdp : String) :
    ManagerState × List Effect :=
  match st.peerConnections.lookup senderPeerId with
  | none => (st, [Effect.logError ("No peer connection for " ++ senderPeerId
              ++ " to handle offer.")])
  | some pc =>
    let answerSdp := "sdp-answer-" ++ Nat.repr pc.handleId
    let pc' := { pc with
      remoteDescription := some offerSdp
      localDescription := some answerSdp
      signalingState := RTCSignalingState.stable }
    let st' := { st with peerConnections := st.peerConnections.set senderPeerId pc' }
    (st', sendWebSocketMessage st' "ANSWER" st.localPeerId senderPeerId answerSdp)

/-- `_handleAnswer` (lines 585–625): requires an existing handle;
`setRemoteDescription(answer)` succeeds only from `have-local-offer`
(engine: → `stable`); any engine failure is caught and logged, never
fatal. -/
def handleAnswer (st : ManagerState) (senderPeerId answerSdp : String) :
    ManagerState × List Effect :=
  match st.peerConnections.lookup senderPeerId with
  | none => (st, [Effect.logError ("No peer connection for " ++ senderPeerId
              ++ " to handle answer.")])
  | some pc =>
    if pc.signalingState = RTCSignalingState.haveLocalOffer then
      let pc' := { pc with
        remoteDescription := some answerSdp
        signalingState := RTCSignalingState.stable }
      ({ st with peerConnections := st.peerConnections.set senderPeerId pc' }, [])
    else
      (st, [Effect.logError ("Error handling answer from " ++ senderPeerId)])

/-- `_handleCandidate` (lines 627–652): requires an existing handle; the
engine buffers or applies the candidate itself, the orchestrator only
logs when the remote description is not yet set. -/
def handleCandidate (st : ManagerState) (senderPeerId _candidateJson : String) :
    ManagerState × List Effect :=
  match st.peerConnections.lookup senderPeerId with
  | none => (st, [Effect.warn ("No peer connection for " ++ senderPeerId
              ++ " to add ICE candidate.")])
  | some pc =>
    if pc.remoteDescription = none then
      (st, [Effect.warn ("Remote description for " ++ senderPeerId
              ++ " is not set yet. ICE candidate will be queued.")])
    else (st, [])

/-- `_createNewPeerMediaReceivingResources` (lines 483–534), under the
standing assumption that the configured video container exists: replace
any previous bundle for the peer with a fresh one (fresh DOM video and
audio elements, no composite stream yet). -/
def createNewPeerMediaReceivingResources (st : ManagerState) (peerId : String) : ManagerState :=
  { st with
    mediaElements :=
      st.mediaElements.set peerId { bundleId := st.nextId, remoteStream := none }
    nextId := st.nextId + 1 }

/-- The `pc.ontrack` handler (lines 237–312): drop the track with a
warning when no media bundle was prepared for the peer; otherwise create
or reuse the composite `remoteStream`, remove every previously held track
of the same kind, add the new track, and raise the matching
stream-established callback (the bundle's video element, which creation
always provides, is the sink for both kinds). -/
def ontrack (st : ManagerState) (peerId : String) (track : MediaTrack) :
    ManagerState × List Effect :=
  match st.mediaElements.lookup peerId with
  | none => (st, [Effect.warn ("No media elements prepared for " ++ peerId
              ++ ", cannot play track.")])
  | some bundle =>
    let stream0 := bundle.remoteStream.getD []
    let stream1 := stream0.filter (fun t => !(t.kind == track.kind)) ++ [track]
    let st' := { st with
      mediaElements :=
        st.mediaElements.set peerId { bundle with remoteStream := some stream1 } }
    match track.kind with
    | TrackKind.video => (st', [Effect.callVideoStreamEstablished peerId stream1])
    | TrackKind.audio => (st', [Effect.callAudioStreamEstablished peerId stream1])

/-- The `pc.onnegotiationneeded` handler (lines 314–330), verbatim: the
guard tests `pc.signalingState !== "stable"` (although its own comment
reads "Only if stable, means we are likely the initiator") and otherwise
logs that offer creation is skipped. -/
def onnegotiationneeded (st : ManagerState) (peerId : String) : ManagerState × List Effect :=
  match st.peerConnections.lookup peerId with
  | none => (st, [])
  | some pc =>
    if pc.signalingState ≠ RTCSignalingState.stable then
      createAndSendOffer st peerId
    else
      (st, [Effect.log ("Negotiation needed for " ++ peerId
              ++ ", but signaling state is stable. Skipping offer creation.")])

/-- `_cleanupPeer` (lines 668–705): close the handle and drop the peer's
entry from every per-peer table (connection, both data channels, both RTP
sender maps, media elements and their composite stream). -/
def cleanupPeer (st : ManagerState) (peerId : String) : ManagerState :=
  { st with
    peerConnections := st.peerConnections.delete peerId
    senderDataChannels := st.senderDataChannels.delete peerId
    receiverDataChannels := st.receiverDataChannels.delete peerId
    videoTrackSenders := st.videoTrackSenders.delete peerId
    audioTrackSenders := st.audioTrackSenders.delete peerId
    mediaElements := st.mediaElements.delete peerId }

/-- `cleanupAllPeers` (lines 707–722): `_cleanupPeer` for every peer and
then clear every table. -/
def cleanupAllPeers (st : ManagerState) : ManagerState :=
  { st with
    peerConnections := []
    senderDataChannels := []
    receiverDataChannels := []
    videoTrackSenders := []
    audioTrackSenders := []
    mediaElements := [] }

/-- The receive-side media preparation guarding session creation in the
NEWPEER / NEWPEERACK / OFFER branches of `handleMessage`: build the
peer's media sinks when the sender advertises media sending and we want
to receive. -/
def mediaPrep (st : ManagerState) (msg : SignalingMessage) : ManagerState :=
  if msg.IsVideoAudioSender && st.isLocalPeerVideoAudioReceiver then
    createNewPeerMediaReceivingResources st msg.SenderPeerId
  else st

/-- "Ensure a session exists" as the NEWPEERACK and OFFER branches do it:
when the sender is unknown, prepare media resources (when advertised and
wanted) and set up the connection; otherwise leave everything alone. -/
def ensureSession (st : ManagerState) (msg : SignalingMessage) : ManagerState × List Effect :=
  if st.peerConnections.contains msg.SenderPeerId then (st, [])
  else
    let r := setupPeerConnection (mediaPrep st msg) msg.SenderPeerId
    (r.1, r.2.2)

/-- The `switch` body of `handleMessage` (lines 333–481), dispatching a
decoded frame by its kind:
NEWPEER (skip own broadcast; prepare receive-side media when the sender
advertises media and we want to receive; ensure the session; broadcast
NEWPEERACK), NEWPEERACK (mirror NEWPEER's session creation for unknown
senders; when we are a media sender and the session is stable, offer),
OFFER (for us or broadcast: ensure the session, apply, answer), ANSWER
(for us or broadcast: apply), CANDIDATE (for us or broadcast: warn when
no session exists, else apply), DISPOSE (sender ≠ self: tear the peer
down), DATA (for us: data-channel ack — raise the callback when our
outbound channel to the sender is open), COMPLETE (for us: raise the
connection callback), anything else logged and ignored. -/
def handleParsed (st : ManagerState) (msg : SignalingMessage) : ManagerState × List Effect :=
  if msg.Typ = "NEWPEER" then
    if msg.SenderPeerId = st.localPeerId then (st, [])
    else
      let r := setupPeerConnection (mediaPrep st msg) msg.SenderPeerId
      (r.1, r.2.2 ++ sendWebSocketMessage r.1 "NEWPEERACK" st.localPeerId "ALL" "New peer ACK")
  else if msg.Typ = "NEWPEERACK" then
    if msg.SenderPeerId = st.localPeerId then (st, [])
    else
      let r1 := ensureSession st msg
      if r1.1.isLocalPeerVideoAudioSender && r1.1.peerConnections.contains msg.SenderPeerId then
        match r1.1.peerConnections.lookup msg.SenderPeerId with
        | some pc =>
          if pc.signalingState = RTCSignalingState.stable then
            let r2 := createAndSendOffer r1.1 msg.SenderPeerId
            (r2.1, r1.2 ++ r2.2)
          else r1
        | none => r1
      else r1
  else if msg.Typ = "OFFER" then
    if msg.ReceiverPeerId = st.localPeerId || msg.ReceiverPeerId = "ALL" then
      let r1 := ensureSession st msg
      let r2 := handleOffer r1.1 msg.SenderPeerId msg.Message
      (r2.1, r1.2 ++ r2.2)
    else (st, [])
  else if msg.Typ = "ANSWER" then
    if msg.ReceiverPeerId = st.localPeerId || msg.ReceiverPeerId = "ALL" then
      handleAnswer st msg.SenderPeerId msg.Message
    else (st, [])
  else if msg.Typ = "CANDIDATE" then
    if msg.ReceiverPeerId = st.localPeerId || msg.ReceiverPeerId = "ALL" then
      if st.peerConnections.contains msg.SenderPeerId then
        handleCandidate st msg.SenderPeerId msg.Message
      else
        (st, [Effect.warn ("Received candidate from " ++ msg.SenderPeerId
                ++ " but no peer connection exists. Might be late.")])
    else (st, [])
  else if msg.Typ = "DISPOSE" then
    if msg.SenderPeerId ≠ st.localPeerId then (cleanupPeer st msg.SenderPeerId, [])
    else (st, [])
  else if msg.Typ = "DATA" then
    if msg.ReceiverPeerId = st.localPeerId then
      match st.senderDataChannels.lookup msg.SenderPeerId with
      | some dc =>
        if dc.readyState = RTCDataChannelState.opened then
          (st, [Effect.callDataChannelConnection msg.SenderPeerId])
        else (st, [])
      | none => (st, [])
    else (st, [])
  else if msg.Typ = "COMPLETE" then
    if msg.ReceiverPeerId = st.localPeerId then
      (st, [Effect.callWebRTCConnection msg.SenderPeerId])
    else (st, [])
  else
    (st, [Effect.log ("Received unknown or unhandled message type " ++ msg.Typ)])

/-- `handleMessage` (lines 333–481): decode the frame text, then
dispatch. -/
def handleMessage (st : ManagerState) (text : String) : ManagerState × List Effect :=
  handleParsed st (parseSignalingMessage text)

/-- `sendViaDataChannel` (lines 756–774): with a target, send on that
peer's outbound channel only when it is open (else warn); without one,
walk every outbound channel, sending on the open ones and warning for
(skipping) each other one. -/
def sendViaDataChannel (st : ManagerState) (message : String) (targetPeerId : Option String) :
    List Effect :=
  match targetPeerId with
  | some target =>
    match st.senderDataChannels.lookup target with
    | some dc =>
      if dc.readyState = RTCDataChannelState.opened then [Effect.dcSend target message]
      else [Effect.warn ("Data channel to " ++ target ++ " not open or does not exist.")]
    | none => [Effect.warn ("Data channel to " ++ target ++ " not open or does not exist.")]
  | none =>
    st.senderDataChannels.foldr
      (fun p acc =>
        (if p.2.readyState = RTCDataChannelState.opened then [Effect.dcSend p.1 message]
         else [Effect.warn ("Data channel to " ++ p.1 ++ " not open, skipping message.")]) ++ acc)
      []

/-- The observable outcome of a `connect` call.  `transportError` is the
outcome §4.2 of the specification claims for a duplicate call; the source
never produces it (it warns and returns normally). -/
inductive ConnectOutcome
  | started
  | transportError
  | warnedAlreadyConnected
  | warnedInProgress
deriving DecidableEq, Repr

/-- The synchronous part of `connect` (lines 74–123): the two duplicate
guards and, when neither fires, recording the media intents, raising the
in-progress flag and opening exactly one socket (whose `onopen` /
`onclose` callbacks are separate events). -/
def connect (st : ManagerState) (isVideoAudioSender isVideoAudioReceiver : Bool) :
    ManagerState × ConnectOutcome :=
  if st.wsOpen then (st, ConnectOutcome.warnedAlreadyConnected)
  else if st.isWebSocketConnectionInProgress then (st, ConnectOutcome.warnedInProgress)
  else
    ({ st with
        isWebSocketConnectionInProgress := true
        isLocalPeerVideoAudioSender := isVideoAudioSender
        isLocalPeerVideoAudioReceiver := isVideoAudioReceiver },
     ConnectOutcome.started)

/-- The `ws.onopen` callback (lines 92–99): mark the transport connected,
raise the connection-state callback, and broadcast our NEWPEER. -/
def wsOnOpen (st : ManagerState) : ManagerState × List Effect :=
  let st' := { st with wsOpen := true, isWebSocketConnectionInProgress := false }
  (st', Effect.callWebSocketConnection "open"
    :: sendWebSocketMessage st' "NEWPEER" st.localPeerId "ALL" ("New peer " ++ st.localPeerId))

/-- The `pc.onicecandidate` callback (lines 156–160), when a candidate is
present: relay it to the peer over the signaling channel. -/
def onicecandidate (st : ManagerState) (peerId candidateJson : String) :
    ManagerState × List Effect :=
  (st, sendWebSocketMessage st "CANDIDATE" st.localPeerId peerId candidateJson)

inductive IceConnectionState
  | iceNew
  | checking
  | connected
  | completed
  | failed
  | disconnected
  | closed
deriving DecidableEq, Repr

/-- The `pc.oniceconnectionstatechange` callback (lines 162–179):
`connected`/`completed` raise the peer-established callback;
`failed`/`disconnected`/`closed` destroy the peer's session. -/
def oniceconnectionstatechange (st : ManagerState) (peerId : String) (s : IceConnectionState) :
    ManagerState × List Effect :=
  let eff1 :=
    if s = IceConnectionState.connected || s = IceConnectionState.completed then
      [Effect.callWebRTCConnection peerId]
    else []
  if s = IceConnectionState.failed || s = IceConnectionState.disconnected
      || s = IceConnectionState.closed then
    (cleanupPeer st peerId, eff1 ++ [Effect.warn ("ICE connection with " ++ peerId
        ++ " lost. Cleaning up.")])
  else (st, eff1)

/-- The `pc.ondatachannel` callback (lines 181–208): register the inbound
channel from the peer. -/
def ondatachannel (st : ManagerState) (peerId : String) : ManagerState × List Effect :=
  ({ st with
      receiverDataChannels :=
        st.receiverDataChannels.set peerId
          { channelId := st.nextId, readyState := RTCDataChannelState.connecting }
      nextId := st.nextId + 1 }, [])

/-- The inbound channel's `onopen` (lines 186–196): mark it open, send
the DATA acknowledgment frame, raise the data-channel callback. -/
def receiverChannelOnOpen (st : ManagerState) (peerId : String) : ManagerState × List Effect :=
  match st.receiverDataChannels.lookup peerId with
  | none => (st, [])
  | some dc =>
    let st' := { st with
      receiverDataChannels :=
        st.receiverDataChannels.set peerId { dc with readyState := RTCDataChannelState.opened } }
    (st', sendWebSocketMessage st' "DATA" st.localPeerId peerId
        ("ReceiverDataChannel on " ++ st.localPeerId ++ " for " ++ peerId ++ " established.")
      ++ [Effect.callDataChannelConnection peerId])

/-- The outbound channel's `onopen` (lines 215–220): mark it open (the
source only logs; the callback waits for the remote DATA ack). -/
def senderChannelOnOpen (st : ManagerState) (peerId : String) : ManagerState × List Effect :=
  match st.senderDataChannels.lookup peerId with
  | none => (st, [])
  | some dc =>
    ({ st with
        senderDataChannels :=
          st.senderDataChannels.set peerId { dc with readyState := RTCDataChannelState.opened } },
     [])

/-- The `for`-loop body of `initiateOffersToAllPeers`, over the key list
of the session table. -/
def offersLoop (st : ManagerState) : List String → ManagerState × List Effect
  | [] => (st, [])
  | k :: ks =>
    let r := createAndSendOffer st k
    let rest := offersLoop r.1 ks
    (rest.1, r.2 ++ rest.2)

/-- `initiateOffersToAllPeers` (lines 655–666): best-effort offer toward
every known peer (the per-peer guard in `_createAndSendOffer` skips the
ones mid-negotiation). -/
def initiateOffersToAllPeers (st : ManagerState) : ManagerState × List Effect :=
  offersLoop st (st.peerConnections.map Prod.fst)

/-- `closeWebRTC` (lines 724–741): destroy every peer session, broadcast
the DISPOSE announcing local departure, release the local capture
stream. -/
def closeWebRTC (st : ManagerState) : ManagerState × List Effect :=
  let st1 := cleanupAllPeers st
  let eff := sendWebSocketMessage st1 "DISPOSE" st.localPeerId "ALL"
      ("Remove peerConnection for " ++ st.localPeerId ++ ".")
  ({ st1 with localStream := none }, eff)

/-- One discrete external event of the single-threaded scheduling model
(§5 of the specification): an inbound signaling frame, a
connection-engine callback, or a local user action. -/
inductive Event
  | signalingFrame (msg : SignalingMessage)
  | negotiationNeeded (peerId : String)
  | iceCandidateFound (peerId : String) (candidateJson : String)
  | iceStateChanged (peerId : String) (s : IceConnectionState)
  | dataChannelArrived (peerId : String)
  | receiverChannelOpen (peerId : String)
  | senderChannelOpen (peerId : String)
  | remoteTrack (peerId : String) (track : MediaTrack)
  | socketOpened
  | userCloseWebRTC
  | userInitiateOffers
  | userSendData (payload : String) (target : Option String)
deriving DecidableEq, Repr

/-- The orchestrator's reaction to one external event. -/
def step (st : ManagerState) (e : Event) : ManagerState × List Effect :=
  match e with
  | Event.signalingFrame msg => handleParsed st msg
  | Event.negotiationNeeded p => onnegotiationneeded st p
  | Event.iceCandidateFound p c => onicecandidate st p c
  | Event.iceStateChanged p s => oniceconnectionstatechange st p s
  | Event.dataChannelArrived p => ondatachannel st p
  | Event.receiverChannelOpen p => receiverChannelOnOpen st p
  | Event.senderChannelOpen p => senderChannelOnOpen st p
  | Event.remoteTrack p t => ontrack st p t
  | Event.socketOpened => wsOnOpen st
  | Event.userCloseWebRTC => closeWebRTC st
  | Event.userInitiateOffers => initiateOffersToAllPeers st
  | Event.userSendData payload target => (st, sendViaDataChannel st payload target)

/-! ### Auxiliary observations and a sample state for the witnesses -/

/-- The video-stream-established callbacks among a list of effects. -/
def videoCallbacks : List Effect → List (String × List MediaTrack)
  | [] => []
  | Effect.callVideoStreamEstablished p s :: es => (p, s) :: videoCallbacks es
  | _ :: es => videoCallbacks es

/-- The audio-stream-established callbacks among a list of effects. -/
def audioCallbacks : List Effect → List (String × List MediaTrack)
  | [] => []
  | Effect.callAudioStreamEstablished p s :: es => (p, s) :: audioCallbacks es
  | _ :: es => audioCallbacks es

/-- A stable established session handle used by the sample state. -/
def pcB : PeerConnection :=
  { handleId := 0
    signalingState := RTCSignalingState.stable
    localDescription := none
    remoteDescription := none }

/-- A small concrete manager state: local peer `A`, socket open, media
sender and receiver, one established session with peer `B` whose outbound
data channel is open and whose media bundle exists. -/
def sampleState : ManagerState :=
  { localPeerId := "A"
    wsOpen := true
    isWebSocketConnectionInProgress := false
    isLocalPeerVideoAudioSender := true
    isLocalPeerVideoAudioReceiver := true
    peerConnections := [("B", pcB)]
    senderDataChannels := [("B", { channelId := 1, readyState := RTCDataChannelState.opened })]
    receiverDataChannels := []
    videoTrackSenders := [("B", 2)]
    audioTrackSenders := []
    mediaElements := [("B", { bundleId := 3, remoteStream := none })]
    localStream := none
    nextId := 4 }

/-- Like `sampleState`, but the session with `B` is mid-negotiation
(`have-local-offer`). -/
def sampleStateMidNegotiation : ManagerState :=
  { sampleState with
    peerConnections :=
      [("B", { pcB with signalingState := RTCSignalingState.haveLocalOffer })] }

/-! ### The claims -/

/-- C1.  The specification (§4.3 Renegotiation) says: when the engine's
negotiation-needed signal fires and the session is `stable`, create and
send a new OFFER; otherwise skip.  The code inverts the guard
(`pc.signalingState !== "stable"`, against its own comment "Only if
stable"), and the non-stable path it does take is then refused by
`_createAndSendOffer`'s stable-only guard — so the handler can never send
an OFFER.  This theorem evaluates the code at the failing input: peer `B`
in `stable` state with the socket open gets no frame at all (only the
skip log), and the mid-negotiation variant also gets no frame (only the
guard warning). -/
theorem C1_negotiationneeded_never_offers :
    ((sampleState.peerConnections.lookup "B").map PeerConnection.signalingState
        = some RTCSignalingState.stable
      ∧ sampleState.wsOpen = true
      ∧ wsSends (onnegotiationneeded sampleState "B").2 = []
      ∧ (onnegotiationneeded sampleState "B").1 = sampleState)
    ∧ ((sampleStateMidNegotiation.peerConnections.lookup "B").map PeerConnection.signalingState
        = some RTCSignalingState.haveLocalOffer
      ∧ wsSends (onnegotiationneeded sampleStateMidNegotiation "B").2 = []
      ∧ (onnegotiationneeded sampleStateMidNegotiation "B").1 = sampleStateMidNegotiation) := by
  decide

/-- A valid field tuple whose payload contains the delimiter. -/
def C2badMessage : SignalingMessage :=
  { Typ := "OFFER"
    SenderPeerId := "a"
    ReceiverPeerId := "b"
    Message := "q|7"
    ConnectionCount := some 3
    IsVideoAudioSender := true }

/-- C2 counterexample.  The claim quantifies over every valid field tuple
(known kind, ids, payload string, integer count, boolean flag); a payload
containing the delimiter `|` breaks the round-trip, because the decoder
splits inside the payload. -/
theorem C2_roundtrip_counterexample :
    C2badMessage.Typ ∈ knownKinds
    ∧ parseSignalingMessage (SignalingMessage.toWire C2badMessage) ≠ C2badMessage := by
  decide

/-- C2 (amended): `decode (encode msg) = msg` for every message with a
known kind, an integer `ConnectionCount`, and — the restriction the
counterexample forces — no `|` in any string field. -/
theorem C2_roundtrip (m : SignalingMessage) (n : Nat)
    (_hk : m.Typ ∈ knownKinds)
    (hc : m.ConnectionCount = some n)
    (h1 : '|' ∉ m.Typ.data) (h2 : '|' ∉ m.SenderPeerId.data)
    (h3 : '|' ∉ m.ReceiverPeerId.data) (h4 : '|' ∉ m.Message.data) :
    parseSignalingMessage (SignalingMessage.toWire m) = m :=
  parse_toWire m n hc h1 h2 h3 h4

/-- A delimiter-free OFFER frame for the round-trip witness. -/
def C2goodMessage : SignalingMessage :=
  { Typ := "OFFER"
    SenderPeerId := "A"
    ReceiverPeerId := "B"
    Message := "sdp"
    ConnectionCount := some 12
    IsVideoAudioSender := false }

theorem C2_roundtrip_witness :
    C2goodMessage.Typ ∈ knownKinds
    ∧ parseSignalingMessage (SignalingMessage.toWire C2goodMessage) = C2goodMessage :=
  ⟨by decide,
   C2_roundtrip C2goodMessage 12 (by decide) (by decide) (by decide) (by decide)
     (by decide) (by decide)⟩

/-- C3 counterexample.  With the transport already connected, `connect`
does not fail with a `TransportError` — it returns normally after a
warning. -/
theorem C3_counterexample :
    sampleState.wsOpen = true
    ∧ (connect sampleState true true).2 ≠ ConnectOutcome.transportError := by
  decide

/-- C3 (amended): called while already connected or while an attempt is
in flight, `connect` is a warned no-op rather than a `TransportError`
failure: the state is unchanged — in particular no second concurrent
connection attempt starts. -/
theorem C3_connect_guard (st : ManagerState) (s r : Bool)
    (h : st.wsOpen = true ∨ st.isWebSocketConnectionInProgress = true) :
    (connect st s r).1 = st
    ∧ ((connect st s r).2 = ConnectOutcome.warnedAlreadyConnected
       ∨ (connect st s r).2 = ConnectOutcome.warnedInProgress) := by
  rcases h with h | h
  · simp [connect, h]
  · by_cases hw : st.wsOpen = true
    · simp [connect, hw]
    · simp [connect, hw, h]

theorem C3_connect_guard_witness :
    (sampleState.wsOpen = true ∨ sampleState.isWebSocketConnectionInProgress = true)
    ∧ ((connect sampleState true true).1 = sampleState
       ∧ ((connect sampleState true true).2 = ConnectOutcome.warnedAlreadyConnected
          ∨ (connect sampleState true true).2 = ConnectOutcome.warnedInProgress)) :=
  ⟨Or.inl (by decide), C3_connect_guard sampleState true true (Or.inl (by decide))⟩

theorem wsSends_append (a b : List Effect) : wsSends (a ++ b) = wsSends a ++ wsSends b := by
  induction a with
  | nil => rfl
  | cons e es ih => cases e <;> simp [wsSends, ih]

theorem dcSends_append (a b : List Effect) : dcSends (a ++ b) = dcSends a ++ dcSends b := by
  induction a with
  | nil => rfl
  | cons e es ih => cases e <;> simp [dcSends, ih]

/-- The handle state after `createOffer` + `setLocalDescription` in
`_createAndSendOffer`. -/
def offeredPc (pc : PeerConnection) : PeerConnection :=
  { pc with
    localDescription := some ("sdp-offer-" ++ Nat.repr pc.handleId)
    signalingState := RTCSignalingState.haveLocalOffer }

theorem createAndSendOffer_of_stable (st : ManagerState) (p : String) (pc : PeerConnection)
    (hpc : st.peerConnections.lookup p = some pc)
    (hs : pc.signalingState = RTCSignalingState.stable) :
    createAndSendOffer st p
      = ({ st with peerConnections := st.peerConnections.set p (offeredPc pc) },
         sendWebSocketMessage
           { st with peerConnections := st.peerConnections.set p (offeredPc pc) }
           "OFFER" st.localPeerId p ("sdp-offer-" ++ Nat.repr pc.handleId)) := by
  simp [createAndSendOffer, hpc, hs, offeredPc]

theorem createAndSendOffer_of_not_stable (st : ManagerState) (p : String) (pc : PeerConnection)
    (hpc : st.peerConnections.lookup p = some pc)
    (hs : pc.signalingState ≠ RTCSignalingState.stable) :
    createAndSendOffer st p
      = (st, [Effect.warn ("Cannot create offer for " ++ p
            ++ ", signaling state is not stable.")]) := by
  simp [createAndSendOffer, hpc, hs]

/-- C4: offer creation is gated on `stable`.  From `stable`, two
successive create-offer calls for the same peer (no intervening answer)
send exactly one OFFER — the second call is a warned no-op; from any
non-stable state a call sends nothing and changes nothing (warned
no-op).  (`wsOpen` is assumed: with the socket closed even the first
frame is dropped by `sendWebSocketMessage`.) -/
theorem C4_create_offer_guard (st : ManagerState) (p : String) (pc : PeerConnection)
    (hpc : st.peerConnections.lookup p = some pc) (hws : st.wsOpen = true) :
    (pc.signalingState = RTCSignalingState.stable →
      (wsSends ((createAndSendOffer st p).2
          ++ (createAndSendOffer (createAndSendOffer st p).1 p).2)).map SignalingMessage.Typ
        = ["OFFER"]
      ∧ (createAndSendOffer (createAndSendOffer st p).1 p).1 = (createAndSendOffer st p).1
      ∧ (∃ w, Effect.warn w ∈ (createAndSendOffer (createAndSendOffer st p).1 p).2))
    ∧ (pc.signalingState ≠ RTCSignalingState.stable →
      ((createAndSendOffer st p).1 = st
       ∧ wsSends (createAndSendOffer st p).2 = []
       ∧ ∃ w, Effect.warn w ∈ (createAndSendOffer st p).2)) := by
  constructor
  · intro hstable
    have h1 := createAndSendOffer_of_stable st p pc hpc hstable
    have h2 : (createAndSendOffer st p).1.peerConnections.lookup p = some (offeredPc pc) := by
      rw [h1]
      exact SMap.lookup_set_self _ _ _
    have hns : (offeredPc pc).signalingState ≠ RTCSignalingState.stable := by
      simp [offeredPc]
    have h3 := createAndSendOffer_of_not_stable (createAndSendOffer st p).1 p (offeredPc pc) h2 hns
    refine ⟨?_, ?_, ?_⟩
    · rw [h3, h1]
      simp [wsSends_append, sendWebSocketMessage, hws, wsSends]
    · rw [h3]
    · rw [h3]
      exact ⟨_, List.mem_singleton.mpr rfl⟩
  · intro hns
    rw [createAndSendOffer_of_not_stable st p pc hpc hns]
    exact ⟨rfl, rfl, ⟨_, List.mem_singleton.mpr rfl⟩⟩

theorem C4_create_offer_guard_witness :
    sampleState.peerConnections.lookup "B" = some pcB
    ∧ sampleState.wsOpen = true
    ∧ ((pcB.signalingState = RTCSignalingState.stable →
      (wsSends ((createAndSendOffer sampleState "B").2
          ++ (createAndSendOffer (createAndSendOffer sampleState "B").1 "B").2)).map
            SignalingMessage.Typ = ["OFFER"]
      ∧ (createAndSendOffer (createAndSendOffer sampleState "B").1 "B").1
          = (createAndSendOffer sampleState "B").1
      ∧ (∃ w, Effect.warn w ∈ (createAndSendOffer (createAndSendOffer sampleState "B").1 "B").2))
    ∧ (pcB.signalingState ≠ RTCSignalingState.stable →
      ((createAndSendOffer sampleState "B").1 = sampleState
       ∧ wsSends (createAndSendOffer sampleState "B").2 = []
       ∧ ∃ w, Effect.warn w ∈ (createAndSendOffer sampleState "B").2))) :=
  ⟨by decide, by decide, C4_create_offer_guard sampleState "B" pcB (by decide) (by decide)⟩

/-- `addLocalTracks` touches only the RTP-sender maps and the allocation
counter. -/
theorem addLocalTracks_fields (st : ManagerState) (p : String) (tracks : List MediaTrack) :
    (addLocalTracks st p tracks).localPeerId = st.localPeerId
    ∧ (addLocalTracks st p tracks).wsOpen = st.wsOpen
    ∧ (addLocalTracks st p tracks).isLocalPeerVideoAudioSender = st.isLocalPeerVideoAudioSender
    ∧ (addLocalTracks st p tracks).isLocalPeerVideoAudioReceiver
        = st.isLocalPeerVideoAudioReceiver
    ∧ (addLocalTracks st p tracks).peerConnections = st.peerConnections
    ∧ (addLocalTracks st p tracks).senderDataChannels = st.senderDataChannels
    ∧ (addLocalTracks st p tracks).receiverDataChannels = st.receiverDataChannels
    ∧ (addLocalTracks st p tracks).mediaElements = st.mediaElements
    ∧ st.nextId ≤ (addLocalTracks st p tracks).nextId := by
  induction tracks generalizing st with
  | nil => simp [addLocalTracks]
  | cons t ts ih =>
    cases hk : t.kind with
    | video =>
      have hstep : addLocalTracks st p (t :: ts)
          = addLocalTracks
              { st with
                nextId := st.nextId + 1
                videoTrackSenders := st.videoTrackSenders.set p st.nextId } p ts := by
        simp [addLocalTracks, hk]
      rw [hstep]
      have h := ih ({ st with
        nextId := st.nextId + 1
        videoTrackSenders := st.videoTrackSenders.set p st.nextId })
      exact ⟨h.1, h.2.1, h.2.2.1, h.2.2.2.1, h.2.2.2.2.1, h.2.2.2.2.2.1, h.2.2.2.2.2.2.1,
        h.2.2.2.2.2.2.2.1, le_trans (Nat.le_succ _) h.2.2.2.2.2.2.2.2⟩
    | audio =>
      have hstep : addLocalTracks st p (t :: ts)
          = addLocalTracks
              { st with
                nextId := st.nextId + 1
                audioTrackSenders := st.audioTrackSenders.set p st.nextId } p ts := by
        simp [addLocalTracks, hk]
      rw [hstep]
      have h := ih ({ st with
        nextId := st.nextId + 1
        audioTrackSenders := st.audioTrackSenders.set p st.nextId })
      exact ⟨h.1, h.2.1, h.2.2.1, h.2.2.2.1, h.2.2.2.2.1, h.2.2.2.2.2.1, h.2.2.2.2.2.2.1,
        h.2.2.2.2.2.2.2.1, le_trans (Nat.le_succ _) h.2.2.2.2.2.2.2.2⟩

theorem setup_of_found (st : ManagerState) (p : String) (pc : PeerConnection)
    (h : st.peerConnections.lookup p = some pc) :
    setupPeerConnection st p
      = (st, pc, [Effect.warn ("Peer connection for " ++ p ++ " already exists.")]) := by
  simp [setupPeerConnection, h]

/-- The fresh handle `_setupPeerConnection` allocates for an unknown
peer. -/
def freshPc (st : ManagerState) : PeerConnection :=
  { handleId := st.nextId
    signalingState := RTCSignalingState.stable
    localDescription := none
    remoteDescription := none }

theorem setup_table_of_absent (st : ManagerState) (p : String)
    (h : st.peerConnections.lookup p = none) :
    (setupPeerConnection st p).1.peerConnections = st.peerConnections.set p (freshPc st)
    ∧ (setupPeerConnection st p).2.1 = freshPc st := by
  constructor
  · simp only [setupPeerConnection, h, freshPc]
    repeat' split
    all_goals
      first
        | rfl
        | exact (addLocalTracks_fields _ p _).2.2.2.2.1
  · simp [setupPeerConnection, h, freshPc]

/-- C5: ensure-session is idempotent: the second `_setupPeerConnection`
for the same peer id returns the same engine handle and leaves the state
untouched; the handle returned by the first call is exactly the one
registered in the session table; and setup preserves the
one-entry-per-peer-id invariant of the table. -/
theorem C5_setup_idempotent (st : ManagerState) (p : String) :
    (setupPeerConnection (setupPeerConnection st p).1 p).2.1 = (setupPeerConnection st p).2.1
    ∧ (setupPeerConnection (setupPeerConnection st p).1 p).1 = (setupPeerConnection st p).1
    ∧ (setupPeerConnection st p).1.peerConnections.lookup p
        = some (setupPeerConnection st p).2.1
    ∧ (st.peerConnections.keysUnique → (setupPeerConnection st p).1.peerConnections.keysUnique) := by
  cases h : st.peerConnections.lookup p with
  | some pc =>
    simp [setup_of_found st p pc h, h]
  | none =>
    obtain ⟨htable, hret⟩ := setup_table_of_absent st p h
    have hlook : (setupPeerConnection st p).1.peerConnections.lookup p
        = some (setupPeerConnection st p).2.1 := by
      rw [htable, hret]
      exact SMap.lookup_set_self _ _ _
    have h2 := setup_of_found (setupPeerConnection st p).1 p _ hlook
    refine ⟨?_, ?_, hlook, ?_⟩
    · rw [h2]
    · rw [h2]
    · intro hu
      rw [htable]
      exact SMap.keysUnique_set _ _ _ hu

theorem C5_setup_idempotent_witness :
    (setupPeerConnection (setupPeerConnection sampleState "C").1 "C").2.1
        = (setupPeerConnection sampleState "C").2.1
    ∧ (setupPeerConnection (setupPeerConnection sampleState "C").1 "C").1
        = (setupPeerConnection sampleState "C").1
    ∧ (setupPeerConnection sampleState "C").1.peerConnections.lookup "C"
        = some (setupPeerConnection sampleState "C").2.1
    ∧ (sampleState.peerConnections.keysUnique →
        (setupPeerConnection sampleState "C").1.peerConnections.keysUnique) :=
  C5_setup_idempotent sampleState "C"

/-! ### C6: inbound-track assembly -/

/-- The composite remote stream currently held for a peer (empty when the
bundle or its stream is absent). -/
def remoteStreamOf (st : ManagerState) (p : String) : List MediaTrack :=
  ((st.mediaElements.lookup p).bind MediaBundle.remoteStream).getD []

/-- At most one track of each kind. -/
def atMostOnePerKind (s : List MediaTrack) : Prop :=
  ∀ k, (s.filter (fun t => t.kind == k)).length ≤ 1

/-- Deliver a sequence of inbound remote tracks for `p`, in order. -/
def applyRemoteTracks (st : ManagerState) (p : String) (tracks : List MediaTrack) :
    ManagerState :=
  tracks.foldl (fun s t => (ontrack s p t).1) st

/-- The composite stream after `ontrack` adds `track` to bundle `b`:
same-kind tracks removed, the new track appended. -/
def addedStream (b : MediaBundle) (track : MediaTrack) : List MediaTrack :=
  (b.remoteStream.getD []).filter (fun t => !(t.kind == track.kind)) ++ [track]

theorem ontrack_state_of_found (st : ManagerState) (p : String) (b : MediaBundle)
    (track : MediaTrack) (hb : st.mediaElements.lookup p = some b) :
    (ontrack st p track).1
      = { st with
          mediaElements :=
            st.mediaElements.set p { b with remoteStream := some (addedStream b track) } } := by
  cases hk : track.kind <;> simp [ontrack, hb, hk, addedStream]

theorem ontrack_effects_video (st : ManagerState) (p : String) (b : MediaBundle)
    (track : MediaTrack) (hb : st.mediaElements.lookup p = some b)
    (hk : track.kind = TrackKind.video) :
    (ontrack st p track).2 = [Effect.callVideoStreamEstablished p (addedStream b track)] := by
  simp [ontrack, hb, hk, addedStream]

theorem ontrack_effects_audio (st : ManagerState) (p : String) (b : MediaBundle)
    (track : MediaTrack) (hb : st.mediaElements.lookup p = some b)
    (hk : track.kind = TrackKind.audio) :
    (ontrack st p track).2 = [Effect.callAudioStreamEstablished p (addedStream b track)] := by
  simp [ontrack, hb, hk, addedStream]

theorem filter_same_addTrack (s : List MediaTrack) (track : MediaTrack) :
    (s.filter (fun t => !(t.kind == track.kind)) ++ [track]).filter
      (fun t => t.kind == track.kind) = [track] := by
  rw [List.filter_append, List.filter_filter]
  simp

theorem length_filter_and_le (s : List MediaTrack) (p q : MediaTrack → Bool) :
    (s.filter (fun a => p a && q a)).length ≤ (s.filter p).length :=
  (List.monotone_filter_right s (fun a ha => by
    simp only [Bool.and_eq_true] at ha
    exact ha.1)).length_le

theorem atMostOnePerKind_step (s : List MediaTrack) (track : MediaTrack)
    (h : atMostOnePerKind s) :
    atMostOnePerKind (s.filter (fun t => !(t.kind == track.kind)) ++ [track]) := by
  intro k
  by_cases hk : k = track.kind
  · subst hk
    rw [filter_same_addTrack]
    simp
  · rw [List.filter_append]
    have h1 : [track].filter (fun t => t.kind == k) = [] := by
      simp [List.filter_cons, Ne.symm hk]
    rw [h1, List.append_nil, List.filter_filter]
    calc (s.filter fun a => (a.kind == k) && !(a.kind == track.kind)).length
        ≤ (s.filter fun a => a.kind == k).length :=
          length_filter_and_le s (fun a => a.kind == k) (fun a => !(a.kind == track.kind))
      _ ≤ 1 := h k

theorem C6_aux (p : String) : ∀ (tracks : List MediaTrack) (st : ManagerState) (b : MediaBundle),
    st.mediaElements.lookup p = some b → atMostOnePerKind (b.remoteStream.getD []) →
    ∃ b', (applyRemoteTracks st p tracks).mediaElements.lookup p = some b'
      ∧ atMostOnePerKind (b'.remoteStream.getD []) := by
  intro tracks
  induction tracks with
  | nil => exact fun st b hb hdf => ⟨b, hb, hdf⟩
  | cons t ts ih =>
    intro st b hb hdf
    refine ih (ontrack st p t).1 { b with remoteStream := some (addedStream b t) } ?_ ?_
    · rw [ontrack_state_of_found st p b t hb]
      exact SMap.lookup_set_self _ _ _
    · exact atMostOnePerKind_step _ t hdf

/-- C6: for a peer whose media-receiving resources exist, the composite
remote stream keeps at most one track of each kind across any sequence of
inbound remote tracks, and after two inbound video tracks it holds
exactly one video track — the most recent. -/
theorem C6_no_duplicate_inbound_tracks (st : ManagerState) (p : String) (b : MediaBundle)
    (hb : st.mediaElements.lookup p = some b)
    (hdf : atMostOnePerKind (b.remoteStream.getD [])) :
    (∀ tracks : List MediaTrack,
       atMostOnePerKind (remoteStreamOf (applyRemoteTracks st p tracks) p))
    ∧ (∀ t1 t2 : MediaTrack, t1.kind = TrackKind.video → t2.kind = TrackKind.video →
       (remoteStreamOf (applyRemoteTracks st p [t1, t2]) p).filter
         (fun t => t.kind == TrackKind.video) = [t2]) := by
  constructor
  · intro tracks
    obtain ⟨b', hb', hdf'⟩ := C6_aux p tracks st b hb hdf
    unfold remoteStreamOf
    rw [hb']
    exact hdf'
  · intro t1 t2 h1 h2
    set b1 : MediaBundle := { b with remoteStream := some (addedStream b t1) } with hb1def
    have hb1 : (ontrack st p t1).1.mediaElements.lookup p = some b1 := by
      rw [ontrack_state_of_found st p b t1 hb]
      exact SMap.lookup_set_self _ _ _
    set b2 : MediaBundle := { b1 with remoteStream := some (addedStream b1 t2) } with hb2def
    have hb2 : (ontrack (ontrack st p t1).1 p t2).1.mediaElements.lookup p = some b2 := by
      rw [ontrack_state_of_found (ontrack st p t1).1 p b1 t2 hb1]
      exact SMap.lookup_set_self _ _ _
    have happ : applyRemoteTracks st p [t1, t2] = (ontrack (ontrack st p t1).1 p t2).1 := rfl
    rw [happ]
    unfold remoteStreamOf
    rw [hb2]
    show (addedStream b1 t2).filter (fun t => t.kind == TrackKind.video) = [t2]
    have hmain := filter_same_addTrack (b1.remoteStream.getD []) t2
    rw [h2] at hmain
    simpa [addedStream, h2] using hmain

theorem C6_witness :
    sampleState.mediaElements.lookup "B" = some { bundleId := 3, remoteStream := none }
    ∧ ((∀ tracks : List MediaTrack,
         atMostOnePerKind (remoteStreamOf (applyRemoteTracks sampleState "B" tracks) "B"))
       ∧ (∀ t1 t2 : MediaTrack, t1.kind = TrackKind.video → t2.kind = TrackKind.video →
         (remoteStreamOf (applyRemoteTracks sampleState "B" [t1, t2]) "B").filter
           (fun t => t.kind == TrackKind.video) = [t2])) :=
  ⟨by decide,
   C6_no_duplicate_inbound_tracks sampleState "B" { bundleId := 3, remoteStream := none }
     (by decide) (by intro k; simp)⟩

/-! ### C7: data sends -/

theorem dcSends_broadcast_aux (l : SMap DataChannel) (message : String) :
    dcSends (l.foldr (fun q acc =>
        (if q.2.readyState = RTCDataChannelState.opened then [Effect.dcSend q.1 message]
         else [Effect.warn ("Data channel to " ++ q.1 ++ " not open, skipping message.")]) ++ acc)
      [])
      = (l.filter (fun q => q.2.readyState == RTCDataChannelState.opened)).map
          (fun q => (q.1, message)) := by
  induction l with
  | nil => rfl
  | cons q t ih =>
    by_cases h : q.2.readyState = RTCDataChannelState.opened
    · simp [List.foldr_cons, List.filter_cons, h, dcSends_append, dcSends, ih]
    · simp [List.foldr_cons, List.filter_cons, h, dcSends_append, dcSends, ih]

/-- C7: `sendViaDataChannel` with a target sends on that peer's outbound
channel exactly when it exists and is open, and otherwise warns without
sending (and without throwing — the function is total); without a target
it sends on exactly the open outbound channels, in table order, skipping
each non-open one individually. -/
theorem C7_sendData (st : ManagerState) (payload : String) :
    (∀ target dc, st.senderDataChannels.lookup target = some dc →
        dc.readyState = RTCDataChannelState.opened →
        sendViaDataChannel st payload (some target) = [Effect.dcSend target payload])
    ∧ (∀ target,
        (∀ dc, st.senderDataChannels.lookup target = some dc →
            dc.readyState ≠ RTCDataChannelState.opened) →
        dcSends (sendViaDataChannel st payload (some target)) = []
        ∧ ∃ w, Effect.warn w ∈ sendViaDataChannel st payload (some target))
    ∧ dcSends (sendViaDataChannel st payload none)
        = (st.senderDataChannels.filter
            (fun q => q.2.readyState == RTCDataChannelState.opened)).map
            (fun q => (q.1, payload)) := by
  refine ⟨?_, ?_, ?_⟩
  · intro target dc h hopen
    simp [sendViaDataChannel, h, hopen]
  · intro target h
    cases hdc : st.senderDataChannels.lookup target with
    | none =>
      refine ⟨by simp [sendViaDataChannel, hdc, dcSends],
        ⟨"Data channel to " ++ target ++ " not open or does not exist.", ?_⟩⟩
      simp [sendViaDataChannel, hdc]
    | some dc =>
      have hne := h dc hdc
      refine ⟨by simp [sendViaDataChannel, hdc, hne, dcSends],
        ⟨"Data channel to " ++ target ++ " not open or does not exist.", ?_⟩⟩
      simp [sendViaDataChannel, hdc, hne]
  · exact dcSends_broadcast_aux st.senderDataChannels payload

theorem C7_sendData_witness :
    sampleState.senderDataChannels.lookup "B"
        = some { channelId := 1, readyState := RTCDataChannelState.opened }
    ∧ sendViaDataChannel sampleState "hello" (some "B") = [Effect.dcSend "B" "hello"]
    ∧ dcSends (sendViaDataChannel sampleState "hello" none) = [("B", "hello")] :=
  ⟨by decide,
   (C7_sendData sampleState "hello").1 "B"
     { channelId := 1, readyState := RTCDataChannelState.opened } (by decide) (by decide),
   by
     have h := (C7_sendData sampleState "hello").2.2
     rw [h]
     decide⟩

/-! ### C8: DISPOSE teardown -/

theorem setup_lookup_of_absent (st : ManagerState) (p : String)
    (h : st.peerConnections.lookup p = none) :
    (setupPeerConnection st p).1.peerConnections.lookup p = some (freshPc st) := by
  rw [(setup_table_of_absent st p h).1]
  exact SMap.lookup_set_self _ _ _

theorem handleParsed_dispose (st : ManagerState) (msg : SignalingMessage)
    (hT : msg.Typ = "DISPOSE") (hS : msg.SenderPeerId ≠ st.localPeerId) :
    handleParsed st msg = (cleanupPeer st msg.SenderPeerId, []) := by
  simp [handleParsed, hT, hS]

theorem handleParsed_newpeer_fresh (st : ManagerState) (msg : SignalingMessage)
    (hT : msg.Typ = "NEWPEER") (hS : msg.SenderPeerId ≠ st.localPeerId)
    (habs : st.peerConnections.lookup msg.SenderPeerId = none) :
    ∃ pc', (handleParsed st msg).1.peerConnections.lookup msg.SenderPeerId = some pc'
      ∧ pc'.signalingState = RTCSignalingState.stable
      ∧ st.nextId ≤ pc'.handleId := by
  simp only [handleParsed, hT, if_pos rfl, hS, if_neg hS, mediaPrep]
  by_cases hflag : (msg.IsVideoAudioSender && st.isLocalPeerVideoAudioReceiver) = true
  · simp only [hflag, if_pos rfl, if_true]
    have habs1 : (createNewPeerMediaReceivingResources st msg.SenderPeerId).peerConnections.lookup
        msg.SenderPeerId = none := habs
    refine ⟨freshPc (createNewPeerMediaReceivingResources st msg.SenderPeerId),
      setup_lookup_of_absent _ _ habs1, rfl, ?_⟩
    exact Nat.le_succ st.nextId
  · simp only [Bool.not_eq_true] at hflag
    simp only [hflag, Bool.false_eq_true, if_false]
    exact ⟨freshPc st, setup_lookup_of_absent st _ habs, rfl, Nat.le_refl _⟩

/-- C8: processing a DISPOSE from peer `p` (sender ≠ self) removes `p`
from the session table and from every per-peer resource table (engine
handle, both data channels, both RTP-sender maps, media elements), leaves
every other peer's entries untouched, and a subsequent NEWPEER from `p`
creates a fresh stable session whose engine handle is distinct from any
handle the destroyed session held (allocation ids only grow). -/
theorem C8_dispose_teardown (st : ManagerState) (msg msg2 : SignalingMessage) (p : String)
    (hT : msg.Typ = "DISPOSE") (hS : msg.SenderPeerId = p)
    (hT2 : msg2.Typ = "NEWPEER") (hS2 : msg2.SenderPeerId = p)
    (hp : p ≠ st.localPeerId) :
    ((handleParsed st msg).1.peerConnections.lookup p = none
     ∧ (handleParsed st msg).1.senderDataChannels.lookup p = none
     ∧ (handleParsed st msg).1.receiverDataChannels.lookup p = none
     ∧ (handleParsed st msg).1.videoTrackSenders.lookup p = none
     ∧ (handleParsed st msg).1.audioTrackSenders.lookup p = none
     ∧ (handleParsed st msg).1.mediaElements.lookup p = none)
    ∧ (∀ q, q ≠ p →
        (handleParsed st msg).1.peerConnections.lookup q = st.peerConnections.lookup q
        ∧ (handleParsed st msg).1.senderDataChannels.lookup q = st.senderDataChannels.lookup q
        ∧ (handleParsed st msg).1.receiverDataChannels.lookup q
            = st.receiverDataChannels.lookup q
        ∧ (handleParsed st msg).1.videoTrackSenders.lookup q = st.videoTrackSenders.lookup q
        ∧ (handleParsed st msg).1.audioTrackSenders.lookup q = st.audioTrackSenders.lookup q
        ∧ (handleParsed st msg).1.mediaElements.lookup q = st.mediaElements.lookup q)
    ∧ (∃ pc', (handleParsed (handleParsed st msg).1 msg2).1.peerConnections.lookup p = some pc'
        ∧ pc'.signalingState = RTCSignalingState.stable
        ∧ st.nextId ≤ pc'.handleId
        ∧ ∀ pcOld, st.peerConnections.lookup p = some pcOld →
            pcOld.handleId < st.nextId → pc'.handleId ≠ pcOld.handleId) := by
  subst hS
  have hd := handleParsed_dispose st msg hT hp
  rw [hd]
  refine ⟨?_, ?_, ?_⟩
  · exact ⟨SMap.lookup_delete_self _ _, SMap.lookup_delete_self _ _,
      SMap.lookup_delete_self _ _, SMap.lookup_delete_self _ _,
      SMap.lookup_delete_self _ _, SMap.lookup_delete_self _ _⟩
  · intro q hq
    exact ⟨SMap.lookup_delete_ne _ _ _ hq, SMap.lookup_delete_ne _ _ _ hq,
      SMap.lookup_delete_ne _ _ _ hq, SMap.lookup_delete_ne _ _ _ hq,
      SMap.lookup_delete_ne _ _ _ hq, SMap.lookup_delete_ne _ _ _ hq⟩
  · have hS2' : msg2.SenderPeerId ≠ (cleanupPeer st msg.SenderPeerId).localPeerId := by
      rw [hS2]
      exact hp
    have habs : (cleanupPeer st msg.SenderPeerId).peerConnections.lookup msg2.SenderPeerId
        = none := by
      rw [hS2]
      exact SMap.lookup_delete_self _ _
    obtain ⟨pc', hlk, hstable, hge⟩ :=
      handleParsed_newpeer_fresh (cleanupPeer st msg.SenderPeerId) msg2 hT2 hS2' habs
    rw [hS2] at hlk
    refine ⟨pc', hlk, hstable, hge, ?_⟩
    intro pcOld _ hlt
    have hnid : (cleanupPeer st msg.SenderPeerId).nextId = st.nextId := rfl
    rw [hnid] at hge
    omega

theorem C8_dispose_teardown_witness :
    ((handleParsed sampleState
        { Typ := "DISPOSE", SenderPeerId := "B", ReceiverPeerId := "ALL",
          Message := "bye", ConnectionCount := some 1,
          IsVideoAudioSender := true }).1.peerConnections.lookup "B" = none
     ∧ (handleParsed sampleState
        { Typ := "DISPOSE", SenderPeerId := "B", ReceiverPeerId := "ALL",
          Message := "bye", ConnectionCount := some 1,
          IsVideoAudioSender := true }).1.senderDataChannels.lookup "B" = none
     ∧ (handleParsed sampleState
        { Typ := "DISPOSE", SenderPeerId := "B", ReceiverPeerId := "ALL",
          Message := "bye", ConnectionCount := some 1,
          IsVideoAudioSender := true }).1.receiverDataChannels.lookup "B" = none
     ∧ (handleParsed sampleState
        { Typ := "DISPOSE", SenderPeerId := "B", ReceiverPeerId := "ALL",
          Message := "bye", ConnectionCount := some 1,
          IsVideoAudioSender := true }).1.videoTrackSenders.lookup "B" = none
     ∧ (handleParsed sampleState
        { Typ := "DISPOSE", SenderPeerId := "B", ReceiverPeerId := "ALL",
          Message := "bye", ConnectionCount := some 1,
          IsVideoAudioSender := true }).1.audioTrackSenders.lookup "B" = none
     ∧ (handleParsed sampleState
        { Typ := "DISPOSE", SenderPeerId := "B", ReceiverPeerId := "ALL",
          Message := "bye", ConnectionCount := some 1,
          IsVideoAudioSender := true }).1.mediaElements.lookup "B" = none)
    ∧ (∀ q, q ≠ "B" →
        (handleParsed sampleState
          { Typ := "DISPOSE", SenderPeerId := "B", ReceiverPeerId := "ALL",
            Message := "bye", ConnectionCount := some 1,
            IsVideoAudioSender := true }).1.peerConnections.lookup q
            = sampleState.peerConnections.lookup q
        ∧ (handleParsed sampleState
          { Typ := "DISPOSE", SenderPeerId := "B", ReceiverPeerId := "ALL",
            Message := "bye", ConnectionCount := some 1,
            IsVideoAudioSender := true }).1.senderDataChannels.lookup q
            = sampleState.senderDataChannels.lookup q
        ∧ (handleParsed sampleState
          { Typ := "DISPOSE", SenderPeerId := "B", ReceiverPeerId := "ALL",
            Message := "bye", ConnectionCount := some 1,
            IsVideoAudioSender := true }).1.receiverDataChannels.lookup q
            = sampleState.receiverDataChannels.lookup q
        ∧ (handleParsed sampleState
          { Typ := "DISPOSE", SenderPeerId := "B", ReceiverPeerId := "ALL",
            Message := "bye", ConnectionCount := some 1,
            IsVideoAudioSender := true }).1.videoTrackSenders.lookup q
            = sampleState.videoTrackSenders.lookup q
        ∧ (handleParsed sampleState
          { Typ := "DISPOSE", SenderPeerId := "B", ReceiverPeerId := "ALL",
            Message := "bye", ConnectionCount := some 1,
            IsVideoAudioSender := true }).1.audioTrackSenders.lookup q
            = sampleState.audioTrackSenders.lookup q
        ∧ (handleParsed sampleState
          { Typ := "DISPOSE", SenderPeerId := "B", ReceiverPeerId := "ALL",
            Message := "bye", ConnectionCount := some 1,
            IsVideoAudioSender := true }).1.mediaElements.lookup q
            = sampleState.mediaElements.lookup q)
    ∧ (∃ pc', (handleParsed (handleParsed sampleState
          { Typ := "DISPOSE", SenderPeerId := "B", ReceiverPeerId := "ALL",
            Message := "bye", ConnectionCount := some 1,
            IsVideoAudioSender := true }).1
          { Typ := "NEWPEER", SenderPeerId := "B", ReceiverPeerId := "ALL",
            Message := "hi", ConnectionCount := some 0,
            IsVideoAudioSender := true }).1.peerConnections.lookup "B" = some pc'
        ∧ pc'.signalingState = RTCSignalingState.stable
        ∧ sampleState.nextId ≤ pc'.handleId
        ∧ ∀ pcOld, sampleState.peerConnections.lookup "B" = some pcOld →
            pcOld.handleId < sampleState.nextId → pc'.handleId ≠ pcOld.handleId) :=
  C8_dispose_teardown sampleState
    { Typ := "DISPOSE", SenderPeerId := "B", ReceiverPeerId := "ALL",
      Message := "bye", ConnectionCount := some 1, IsVideoAudioSender := true }
    { Typ := "NEWPEER", SenderPeerId := "B", ReceiverPeerId := "ALL",
      Message := "hi", ConnectionCount := some 0, IsVideoAudioSender := true }
    "B" rfl rfl rfl rfl (by decide)

/-! ### C9: inbound-track callbacks -/

/-- Like `sampleState`, but no media-receiving resources were prepared
for `B`. -/
def C9state : ManagerState := { sampleState with mediaElements := [] }

/-- C9 counterexample: the claim quantifies over "any peer", but a remote
video track arriving for a peer with no prepared media-receiving
resources is dropped with a warning — no composite stream is created and
no stream-established callback is raised. -/
theorem C9_counterexample :
    C9state.mediaElements.lookup "B" = none
    ∧ (ontrack C9state "B" { trackId := 9, kind := TrackKind.video }).1 = C9state
    ∧ videoCallbacks (ontrack C9state "B" { trackId := 9, kind := TrackKind.video }).2 = []
    ∧ audioCallbacks (ontrack C9state "B" { trackId := 9, kind := TrackKind.video }).2 = [] := by
  decide

/-- C9 (amended): on receiving a remote track for a peer whose
media-receiving resources exist, the orchestrator looks up or lazily
creates that peer's composite remote stream, adds the track to it, and
raises the video-stream-established callback for a video track and the
audio-stream-established callback for an audio track (each carrying the
composite stream). -/
theorem C9_inbound_track (st : ManagerState) (p : String) (b : MediaBundle) (track : MediaTrack)
    (hb : st.mediaElements.lookup p = some b) :
    ∃ s', (ontrack st p track).1.mediaElements.lookup p
            = some { bundleId := b.bundleId, remoteStream := some s' }
      ∧ track ∈ s'
      ∧ (track.kind = TrackKind.video →
          (ontrack st p track).2 = [Effect.callVideoStreamEstablished p s'])
      ∧ (track.kind = TrackKind.audio →
          (ontrack st p track).2 = [Effect.callAudioStreamEstablished p s']) := by
  refine ⟨addedStream b track, ?_, ?_, ?_, ?_⟩
  · rw [ontrack_state_of_found st p b track hb]
    exact SMap.lookup_set_self _ _ _
  · exact List.mem_append_right _ (List.mem_singleton.mpr rfl)
  · intro hk
    exact ontrack_effects_video st p b track hb hk
  · intro hk
    exact ontrack_effects_audio st p b track hb hk

theorem C9_inbound_track_witness :
    ∃ s', (ontrack sampleState "B" { trackId := 7, kind := TrackKind.video }).1.mediaElements.lookup
            "B" = some { bundleId := 3, remoteStream := some s' }
      ∧ ({ trackId := 7, kind := TrackKind.video } : MediaTrack) ∈ s'
      ∧ (({ trackId := 7, kind := TrackKind.video } : MediaTrack).kind = TrackKind.video →
          (ontrack sampleState "B" { trackId := 7, kind := TrackKind.video }).2
            = [Effect.callVideoStreamEstablished "B" s'])
      ∧ (({ trackId := 7, kind := TrackKind.video } : MediaTrack).kind = TrackKind.audio →
          (ontrack sampleState "B" { trackId := 7, kind := TrackKind.video }).2
            = [Effect.callAudioStreamEstablished "B" s']) :=
  C9_inbound_track sampleState "B" { bundleId := 3, remoteStream := none }
    { trackId := 7, kind := TrackKind.video } (by decide)

/-! ### C10: frame stamping -/

theorem sendWebSocketMessage_stamps (st : ManagerState) (a b c d : String) :
    ∀ m ∈ wsSends (sendWebSocketMessage st a b c d),
      m.ConnectionCount = some st.peerConnections.size
      ∧ m.IsVideoAudioSender = st.isLocalPeerVideoAudioSender := by
  intro m hm
  by_cases h : st.wsOpen = true
  · simp only [sendWebSocketMessage, h, if_true, wsSends, List.mem_singleton] at hm
    subst hm
    exact ⟨rfl, rfl⟩
  · simp [sendWebSocketMessage, h, wsSends] at hm

theorem setup_no_sends (st : ManagerState) (p : String) :
    wsSends (setupPeerConnection st p).2.2 = [] := by
  cases h : st.peerConnections.lookup p with
  | some pc => simp [setup_of_found st p pc h, wsSends]
  | none => simp [setupPeerConnection, h, wsSends]

theorem setup_preserves (st : ManagerState) (p : String) :
    (setupPeerConnection st p).1.isLocalPeerVideoAudioSender = st.isLocalPeerVideoAudioSender
    ∧ (setupPeerConnection st p).1.localPeerId = st.localPeerId
    ∧ (setupPeerConnection st p).1.wsOpen = st.wsOpen := by
  cases h : st.peerConnections.lookup p with
  | some pc => simp [setup_of_found st p pc h]
  | none =>
    simp only [setupPeerConnection, h]
    repeat' split
    all_goals
      first
        | exact ⟨rfl, rfl, rfl⟩
        | exact ⟨(addLocalTracks_fields _ _ _).2.2.1, (addLocalTracks_fields _ _ _).1,
            (addLocalTracks_fields _ _ _).2.1⟩

theorem mediaPrep_fields (st : ManagerState) (msg : SignalingMessage) :
    (mediaPrep st msg).peerConnections = st.peerConnections
    ∧ (mediaPrep st msg).isLocalPeerVideoAudioSender = st.isLocalPeerVideoAudioSender
    ∧ (mediaPrep st msg).localPeerId = st.localPeerId
    ∧ (mediaPrep st msg).wsOpen = st.wsOpen := by
  unfold mediaPrep
  split
  · exact ⟨rfl, rfl, rfl, rfl⟩
  · exact ⟨rfl, rfl, rfl, rfl⟩

theorem ensureSession_no_sends (st : ManagerState) (msg : SignalingMessage) :
    wsSends (ensureSession st msg).2 = [] := by
  unfold ensureSession
  split
  · rfl
  · exact setup_no_sends _ _

theorem ensureSession_preserves (st : ManagerState) (msg : SignalingMessage) :
    (ensureSession st msg).1.isLocalPeerVideoAudioSender = st.isLocalPeerVideoAudioSender
    ∧ (ensureSession st msg).1.localPeerId = st.localPeerId
    ∧ (ensureSession st msg).1.wsOpen = st.wsOpen := by
  unfold ensureSession
  split
  · exact ⟨rfl, rfl, rfl⟩
  · refine ⟨?_, ?_, ?_⟩
    · rw [(setup_preserves _ _).1, (mediaPrep_fields st msg).2.1]
    · rw [(setup_preserves _ _).2.1, (mediaPrep_fields st msg).2.2.1]
    · rw [(setup_preserves _ _).2.2, (mediaPrep_fields st msg).2.2.2]

theorem createAndSendOffer_spec (st : ManagerState) (p : String) :
    (createAndSendOffer st p).1.peerConnections.size = st.peerConnections.size
    ∧ (createAndSendOffer st p).1.isLocalPeerVideoAudioSender = st.isLocalPeerVideoAudioSender
    ∧ ∀ m ∈ wsSends (createAndSendOffer st p).2,
        m.ConnectionCount = some (createAndSendOffer st p).1.peerConnections.size
        ∧ m.IsVideoAudioSender = st.isLocalPeerVideoAudioSender := by
  cases hpc : st.peerConnections.lookup p with
  | none =>
    have h : createAndSendOffer st p
        = (st, [Effect.logError ("Cannot create offer for " ++ p ++ ", no peer connection.")]) := by
      simp [createAndSendOffer, hpc]
    rw [h]
    exact ⟨rfl, rfl, by intro m hm; simp [wsSends] at hm⟩
  | some pc =>
    by_cases hs : pc.signalingState = RTCSignalingState.stable
    · rw [createAndSendOffer_of_stable st p pc hpc hs]
      have hsz : (st.peerConnections.set p (offeredPc pc)).size = st.peerConnections.size :=
        SMap.size_set_of_mem _ _ _ (by rw [hpc]; rfl)
      refine ⟨hsz, rfl, ?_⟩
      intro m hm
      exact sendWebSocketMessage_stamps _ _ _ _ _ m hm
    · rw [createAndSendOffer_of_not_stable st p pc hpc hs]
      exact ⟨rfl, rfl, by intro m hm; simp [wsSends] at hm⟩

/-- The handle state after `_handleOffer` applies the remote offer and
produces the local answer. -/
def answeredPc (pc : PeerConnection) (sdp : String) : PeerConnection :=
  { pc with
    remoteDescription := some sdp
    localDescription := some ("sdp-answer-" ++ Nat.repr pc.handleId)
    signalingState := RTCSignalingState.stable }

theorem handleOffer_of_found (st : ManagerState) (p sdp : String) (pc : PeerConnection)
    (hpc : st.peerConnections.lookup p = some pc) :
    handleOffer st p sdp
      = ({ st with peerConnections := st.peerConnections.set p (answeredPc pc sdp) },
         sendWebSocketMessage
           { st with peerConnections := st.peerConnections.set p (answeredPc pc sdp) }
           "ANSWER" st.localPeerId p ("sdp-answer-" ++ Nat.repr pc.handleId)) := by
  simp [handleOffer, hpc, answeredPc]

theorem handleOffer_spec (st : ManagerState) (p sdp : String) :
    (handleOffer st p sdp).1.peerConnections.size = st.peerConnections.size
    ∧ (handleOffer st p sdp).1.isLocalPeerVideoAudioSender = st.isLocalPeerVideoAudioSender
    ∧ ∀ m ∈ wsSends (handleOffer st p sdp).2,
        m.ConnectionCount = some (handleOffer st p sdp).1.peerConnections.size
        ∧ m.IsVideoAudioSender = st.isLocalPeerVideoAudioSender := by
  cases hpc : st.peerConnections.lookup p with
  | none =>
    have h : handleOffer st p sdp
        = (st, [Effect.logError ("No peer connection for " ++ p ++ " to handle offer.")]) := by
      simp [handleOffer, hpc]
    rw [h]
    exact ⟨rfl, rfl, by intro m hm; simp [wsSends] at hm⟩
  | some pc =>
    rw [handleOffer_of_found st p sdp pc hpc]
    have hsz : (st.peerConnections.set p (answeredPc pc sdp)).size = st.peerConnections.size :=
      SMap.size_set_of_mem _ _ _ (by rw [hpc]; rfl)
    refine ⟨hsz, rfl, ?_⟩
    intro m hm
    exact sendWebSocketMessage_stamps _ _ _ _ _ m hm

theorem handleAnswer_no_sends (st : ManagerState) (p sdp : String) :
    wsSends (handleAnswer st p sdp).2 = [] := by
  cases h : st.peerConnections.lookup p with
  | none => simp [handleAnswer, h, wsSends]
  | some pc =>
    by_cases hs : pc.signalingState = RTCSignalingState.haveLocalOffer <;>
      simp [handleAnswer, h, hs, wsSends]

theorem handleCandidate_no_sends (st : ManagerState) (p c : String) :
    wsSends (handleCandidate st p c).2 = [] := by
  cases h : st.peerConnections.lookup p with
  | none => simp [handleCandidate, h, wsSends]
  | some pc =>
    by_cases hr : pc.remoteDescription = none <;> simp [handleCandidate, h, hr, wsSends]

theorem ontrack_no_sends (st : ManagerState) (p : String) (track : MediaTrack) :
    wsSends (ontrack st p track).2 = [] := by
  cases hb : st.mediaElements.lookup p with
  | none => simp [ontrack, hb, wsSends]
  | some b =>
    cases hk : track.kind
    · simp [ontrack_effects_video st p b track hb hk, wsSends]
    · simp [ontrack_effects_audio st p b track hb hk, wsSends]

theorem wsSends_dc_broadcast (l : SMap DataChannel) (message : String) :
    wsSends (l.foldr (fun q acc =>
        (if q.2.readyState = RTCDataChannelState.opened then [Effect.dcSend q.1 message]
         else [Effect.warn ("Data channel to " ++ q.1 ++ " not open, skipping message.")]) ++ acc)
      []) = [] := by
  induction l with
  | nil => rfl
  | cons q t ih =>
    by_cases h : q.2.readyState = RTCDataChannelState.opened <;>
      simp [List.foldr_cons, h, wsSends_append, wsSends, ih]

theorem sendViaDataChannel_no_sends (st : ManagerState) (payload : String)
    (target : Option String) :
    wsSends (sendViaDataChannel st payload target) = [] := by
  cases target with
  | some t =>
    cases h : st.senderDataChannels.lookup t with
    | none => simp [sendViaDataChannel, h, wsSends]
    | some dc =>
      by_cases ho : dc.readyState = RTCDataChannelState.opened <;>
        simp [sendViaDataChannel, h, ho, wsSends]
  | none => exact wsSends_dc_broadcast st.senderDataChannels payload

theorem offersLoop_spec : ∀ (keys : List String) (s0 : ManagerState),
    (offersLoop s0 keys).1.peerConnections.size = s0.peerConnections.size
    ∧ (offersLoop s0 keys).1.isLocalPeerVideoAudioSender = s0.isLocalPeerVideoAudioSender
    ∧ ∀ m ∈ wsSends (offersLoop s0 keys).2,
        m.ConnectionCount = some s0.peerConnections.size
        ∧ m.IsVideoAudioSender = s0.isLocalPeerVideoAudioSender := by
  intro keys
  induction keys with
  | nil => exact fun s0 => ⟨rfl, rfl, by intro m hm; simp [offersLoop, wsSends] at hm⟩
  | cons k ks ih =>
    intro s0
    obtain ⟨hsz, hsnd, hm⟩ := ih (createAndSendOffer s0 k).1
    have hof := createAndSendOffer_spec s0 k
    have hunf : offersLoop s0 (k :: ks)
        = ((offersLoop (createAndSendOffer s0 k).1 ks).1,
           (createAndSendOffer s0 k).2 ++ (offersLoop (createAndSendOffer s0 k).1 ks).2) := by
      simp [offersLoop]
    rw [hunf]
    refine ⟨by rw [hsz, hof.1], by rw [hsnd, hof.2.1], ?_⟩
    intro m hmem
    rw [wsSends_append, List.mem_append] at hmem
    rcases hmem with hmem | hmem
    · obtain ⟨hcc, hsend⟩ := hof.2.2 m hmem
      exact ⟨by rw [hcc, hof.1], hsend⟩
    · obtain ⟨hcc, hsend⟩ := hm m hmem
      exact ⟨by rw [hcc, hof.1], by rw [hsend, hof.2.1]⟩

theorem handleParsed_stamps (st : ManagerState) (msg : SignalingMessage) :
    ∀ m ∈ wsSends (handleParsed st msg).2,
      m.ConnectionCount = some (handleParsed st msg).1.peerConnections.size
      ∧ m.IsVideoAudioSender = st.isLocalPeerVideoAudioSender := by
  by_cases h1 : msg.Typ = "NEWPEER"
  · by_cases hself : msg.SenderPeerId = st.localPeerId
    · simp [handleParsed, h1, hself, wsSends]
    · have hred : handleParsed st msg
          = ((setupPeerConnection (mediaPrep st msg) msg.SenderPeerId).1,
             (setupPeerConnection (mediaPrep st msg) msg.SenderPeerId).2.2
               ++ sendWebSocketMessage
                    (setupPeerConnection (mediaPrep st msg) msg.SenderPeerId).1
                    "NEWPEERACK" st.localPeerId "ALL" "New peer ACK") := by
        simp [handleParsed, h1, hself]
      rw [hred]
      intro m hm
      rw [wsSends_append, setup_no_sends, List.nil_append] at hm
      obtain ⟨hcc, hsend⟩ := sendWebSocketMessage_stamps _ _ _ _ _ m hm
      refine ⟨hcc, ?_⟩
      rw [hsend, (setup_preserves _ _).1, (mediaPrep_fields st msg).2.1]
  · by_cases h2 : msg.Typ = "NEWPEERACK"
    · by_cases hself : msg.SenderPeerId = st.localPeerId
      · simp [handleParsed, h1, h2, hself, wsSends]
      · have hred : handleParsed st msg
            = (if (ensureSession st msg).1.isLocalPeerVideoAudioSender
                  && (ensureSession st msg).1.peerConnections.contains msg.SenderPeerId then
                match (ensureSession st msg).1.peerConnections.lookup msg.SenderPeerId with
                | some pc =>
                  if pc.signalingState = RTCSignalingState.stable then
                    ((createAndSendOffer (ensureSession st msg).1 msg.SenderPeerId).1,
                     (ensureSession st msg).2
                       ++ (createAndSendOffer (ensureSession st msg).1 msg.SenderPeerId).2)
                  else ensureSession st msg
                | none => ensureSession st msg
              else ensureSession st msg) := by
          simp [handleParsed, h1, h2, hself]
        rw [hred]
        split
        · split
          · split
            · intro m hm
              rw [wsSends_append, ensureSession_no_sends, List.nil_append] at hm
              obtain ⟨hcc, hsend⟩ := (createAndSendOffer_spec (ensureSession st msg).1
                msg.SenderPeerId).2.2 m hm
              exact ⟨hcc, by rw [hsend, (ensureSession_preserves st msg).1]⟩
            · intro m hm
              rw [ensureSession_no_sends] at hm
              simp at hm
          · intro m hm
            rw [ensureSession_no_sends] at hm
            simp at hm
        · intro m hm
          rw [ensureSession_no_sends] at hm
          simp at hm
    · by_cases h3 : msg.Typ = "OFFER"
      · by_cases hrecv : (msg.ReceiverPeerId = st.localPeerId ∨ msg.ReceiverPeerId = "ALL")
        · have hrecv' : (msg.ReceiverPeerId = st.localPeerId || msg.ReceiverPeerId = "ALL")
              = true := by
            rcases hrecv with h | h <;> simp [h]
          have hred : handleParsed st msg
              = ((handleOffer (ensureSession st msg).1 msg.SenderPeerId msg.Message).1,
                 (ensureSession st msg).2
                   ++ (handleOffer (ensureSession st msg).1 msg.SenderPeerId msg.Message).2) := by
            simp [handleParsed, h1, h2, h3, hrecv']
          rw [hred]
          intro m hm
          rw [wsSends_append, ensureSession_no_sends, List.nil_append] at hm
          obtain ⟨hcc, hsend⟩ := (handleOffer_spec (ensureSession st msg).1
            msg.SenderPeerId msg.Message).2.2 m hm
          exact ⟨hcc, by rw [hsend, (ensureSession_preserves st msg).1]⟩
        · have hrecv' : (msg.ReceiverPeerId = st.localPeerId || msg.ReceiverPeerId = "ALL")
              = false := by
            push_neg at hrecv
            simp [hrecv.1, hrecv.2]
          simp [handleParsed, h1, h2, h3, hrecv', wsSends]
      · by_cases h4 : msg.Typ = "ANSWER"
        · intro m hm
          have hred : (handleParsed st msg).2
              = if msg.ReceiverPeerId = st.localPeerId || msg.ReceiverPeerId = "ALL" then
                  (handleAnswer st msg.SenderPeerId msg.Message).2
                else [] := by
            by_cases hr : (msg.ReceiverPeerId = st.localPeerId || msg.ReceiverPeerId = "ALL")
                = true <;>
              simp [handleParsed, h1, h2, h3, h4, hr]
          rw [hred] at hm
          split at hm
          · rw [handleAnswer_no_sends] at hm
            simp at hm
          · simp [wsSends] at hm
        · by_cases h5 : msg.Typ = "CANDIDATE"
          · intro m hm
            have hred : (handleParsed st msg).2
                = if msg.ReceiverPeerId = st.localPeerId || msg.ReceiverPeerId = "ALL" then
                    (if st.peerConnections.contains msg.SenderPeerId then
                      (handleCandidate st msg.SenderPeerId msg.Message).2
                     else
                      [Effect.warn ("Received candidate from " ++ msg.SenderPeerId
                        ++ " but no peer connection exists. Might be late.")])
                  else [] := by
              by_cases hr : (msg.ReceiverPeerId = st.localPeerId ||
                  msg.ReceiverPeerId = "ALL") = true <;>
                by_cases hc : st.peerConnections.contains msg.SenderPeerId = true <;>
                  simp [handleParsed, h1, h2, h3, h4, h5, hr, hc]
            rw [hred] at hm
            split at hm
            · split at hm
              · rw [handleCandidate_no_sends] at hm
                simp at hm
              · simp [wsSends] at hm
            · simp [wsSends] at hm
          · by_cases h6 : msg.Typ = "DISPOSE"
            · intro m hm
              by_cases hs : msg.SenderPeerId ≠ st.localPeerId
              · rw [handleParsed_dispose st msg h6 hs] at hm
                simp [wsSends] at hm
              · simp only [Decidable.not_not] at hs
                simp [handleParsed, h1, h2, h3, h4, h5, h6, hs, wsSends] at hm
            · by_cases h7 : msg.Typ = "DATA"
              · intro m hm
                have hns : wsSends (handleParsed st msg).2 = [] := by
                  by_cases hr : msg.ReceiverPeerId = st.localPeerId
                  · cases hdc : st.senderDataChannels.lookup msg.SenderPeerId with
                    | none => simp [handleParsed, h1, h2, h3, h4, h5, h6, h7, hr, hdc, wsSends]
                    | some dc =>
                      by_cases ho : dc.readyState = RTCDataChannelState.opened <;>
                        simp [handleParsed, h1, h2, h3, h4, h5, h6, h7, hr, hdc, ho, wsSends]
                  · simp [handleParsed, h1, h2, h3, h4, h5, h6, h7, hr, wsSends]
                rw [hns] at hm
                simp at hm
              · by_cases h8 : msg.Typ = "COMPLETE"
                · intro m hm
                  have hns : wsSends (handleParsed st msg).2 = [] := by
                    by_cases hr : msg.ReceiverPeerId = st.localPeerId <;>
                      simp [handleParsed, h1, h2, h3, h4, h5, h6, h7, h8, hr, wsSends]
                  rw [hns] at hm
                  simp at hm
                · intro m hm
                  simp [handleParsed, h1, h2, h3, h4, h5, h6, h7, h8, wsSends] at hm

/-- C10: every signaling frame the orchestrator emits while reacting to
any single external event — a received frame of any kind, an engine
callback, or a user action — carries `ConnectionCount` equal to the
session-table size at the moment it is handed to `ws.send` (no handler
changes the table after emitting, so that is the post-event table size)
and `IsVideoAudioSender` equal to the recorded local media-send intent
(which no handler changes). -/
theorem C10_outgoing_stamping (st : ManagerState) (e : Event) :
    ∀ m ∈ wsSends (step st e).2,
      m.ConnectionCount = some (step st e).1.peerConnections.size
      ∧ m.IsVideoAudioSender = st.isLocalPeerVideoAudioSender := by
  cases e with
  | signalingFrame msg => exact handleParsed_stamps st msg
  | negotiationNeeded p =>
    intro m hm
    show m.ConnectionCount = some (onnegotiationneeded st p).1.peerConnections.size ∧ _
    simp only [step] at hm
    cases hpc : st.peerConnections.lookup p with
    | none => simp [onnegotiationneeded, hpc, wsSends] at hm
    | some pc =>
      by_cases hs : pc.signalingState ≠ RTCSignalingState.stable
      · have hred : onnegotiationneeded st p = createAndSendOffer st p := by
          simp [onnegotiationneeded, hpc, hs]
        rw [hred] at hm ⊢
        exact (createAndSendOffer_spec st p).2.2 m hm
      · simp [onnegotiationneeded, hpc, hs, wsSends] at hm
  | iceCandidateFound p c =>
    intro m hm
    exact sendWebSocketMessage_stamps st _ _ _ _ m hm
  | iceStateChanged p s =>
    intro m hm
    have hns : wsSends (oniceconnectionstatechange st p s).2 = [] := by
      unfold oniceconnectionstatechange
      split
      · split <;> simp [wsSends_append, wsSends]
      · split <;> simp [wsSends_append, wsSends]
    simp only [step] at hm
    rw [hns] at hm
    simp at hm
  | dataChannelArrived p =>
    intro m hm
    simp [step, ondatachannel, wsSends] at hm
  | receiverChannelOpen p =>
    intro m hm
    simp only [step] at hm ⊢
    cases hdc : st.receiverDataChannels.lookup p with
    | none => simp [receiverChannelOnOpen, hdc, wsSends] at hm
    | some dc =>
      simp only [receiverChannelOnOpen, hdc] at hm ⊢
      rw [wsSends_append] at hm
      simp only [wsSends, List.append_nil] at hm
      exact sendWebSocketMessage_stamps _ _ _ _ _ m hm
  | senderChannelOpen p =>
    intro m hm
    cases hdc : st.senderDataChannels.lookup p with
    | none => simp [step, senderChannelOnOpen, hdc, wsSends] at hm
    | some dc => simp [step, senderChannelOnOpen, hdc, wsSends] at hm
  | remoteTrack p t =>
    intro m hm
    simp only [step] at hm
    rw [ontrack_no_sends] at hm
    simp at hm
  | socketOpened =>
    intro m hm
    simp only [step, wsOnOpen, wsSends, sendWebSocketMessage, if_true,
      List.mem_singleton] at hm
    subst hm
    exact ⟨rfl, rfl⟩
  | userCloseWebRTC =>
    intro m hm
    simp only [step, closeWebRTC] at hm ⊢
    exact sendWebSocketMessage_stamps _ _ _ _ _ m hm
  | userInitiateOffers =>
    intro m hm
    simp only [step, initiateOffersToAllPeers] at hm ⊢
    obtain ⟨hcc, hsend⟩ :=
      (offersLoop_spec (st.peerConnections.map Prod.fst) st).2.2 m hm
    exact ⟨by rw [hcc, (offersLoop_spec (st.peerConnections.map Prod.fst) st).1], hsend⟩
  | userSendData payload target =>
    intro m hm
    simp only [step] at hm
    rw [sendViaDataChannel_no_sends] at hm
    simp at hm

/-- The NEWPEERACK `sampleState` broadcasts after a NEWPEER from the
unknown peer `C`: the table then holds `B` and `C`. -/
def sampleAck : SignalingMessage :=
  { Typ := "NEWPEERACK"
    SenderPeerId := "A"
    ReceiverPeerId := "ALL"
    Message := "New peer ACK"
    ConnectionCount := some 2
    IsVideoAudioSender := true }

def sampleNewpeerC : SignalingMessage :=
  { Typ := "NEWPEER"
    SenderPeerId := "C"
    ReceiverPeerId := "ALL"
    Message := "New peer C"
    ConnectionCount := some 0
    IsVideoAudioSender := false }

theorem C10_outgoing_stamping_witness :
    sampleAck ∈ wsSends (step sampleState (Event.signalingFrame sampleNewpeerC)).2
    ∧ (sampleAck.ConnectionCount
        = some (step sampleState (Event.signalingFrame sampleNewpeerC)).1.peerConnections.size
       ∧ sampleAck.IsVideoAudioSender = sampleState.isLocalPeerVideoAudioSender) :=
  ⟨by decide,
   C10_outgoing_stamping sampleState (Event.signalingFrame sampleNewpeerC) sampleAck (by decide)⟩

end ToyWebRTC
